import Mathlib

/-!
Verification of the federation layer of the context-casial-xpress gateway.

The definitions below are a shallow embedding of the Rust source under
crates/casial-server/src: the per-backend circuit breaker and backoff logic
(federation.rs, CircuitState and compute_backoff_duration), the tool registry
(registry.rs), the per-server tool sync with its content-hash cache
(federation.rs, sync_server_tools), the call-forwarding retry loop
(federation.rs, forward_to_downstream / route_tool_call), and the downstream
client connection loop with its pending-request map (client.rs,
connection_task).

Machine integers are modelled as Nat with explicit saturation where the source
uses saturating arithmetic; instants and durations are in milliseconds.
Randomness (backoff jitter) is modelled by a seed parameter reduced modulo the
jitter range, matching gen_range(0..=jitter_max).  I/O interactions of the
retry loops are modelled by outcome oracles indexed by attempt, and the
effects (RPC issued, sleep, circuit-failure recorded) are collected in an
explicit action log so that absence of network I/O is provable.
-/

/-! ## Saturating machine arithmetic (u64 / u32 as Nat) -/

def U64_MAX : Nat := 2 ^ 64 - 1

def U32_MAX : Nat := 2 ^ 32 - 1

/-- u64::saturating_add -/
def satAdd64 (a b : Nat) : Nat := min (a + b) U64_MAX

/-- u64::saturating_mul -/
def satMul64 (a b : Nat) : Nat := min (a * b) U64_MAX

/-- u32::saturating_add -/
def satAdd32 (a b : Nat) : Nat := min (a + b) U32_MAX

/-! ## FederationSettings (config.rs) — the fields used by the federation core -/

structure FederationSettings where
  max_retries : Nat
  tool_cache_ttl_seconds : Nat
  circuit_breaker_threshold : Nat
  circuit_breaker_reset_seconds : Nat
  backoff_initial_ms : Nat
  backoff_max_ms : Nat
deriving Repr, DecidableEq

/-! ## Circuit breaker (federation.rs, CircuitState) -/

structure CircuitState where
  failure_count : Nat
  last_failure : Option Nat
  open_until : Option Nat
  reset_after : Nat
deriving Repr, DecidableEq

/-- CircuitState::new: reset window is max(reset_seconds, 1) seconds, in ms. -/
def CircuitState.new (reset_seconds : Nat) : CircuitState :=
  { failure_count := 0
    last_failure := none
    open_until := none
    reset_after := (max reset_seconds 1) * 1000 }

/-- The stale-failure forgiveness check at the end of CircuitState::is_open:
if now - last_failure >= reset_after, failure_count decays to zero and
last_failure is cleared.  Instant::duration_since saturates, hence Nat
subtraction. -/
def CircuitState.decay (s : CircuitState) (now : Nat) : CircuitState :=
  match s.last_failure with
  | some last =>
      if s.reset_after ≤ now - last then
        { s with failure_count := 0, last_failure := none }
      else s
  | none => s

/-- CircuitState::is_open(&mut self, now): returns the boolean and the mutated
state.  Open window still running returns true immediately; an elapsed window
clears open_until and resets failure_count; then the decay check runs. -/
def CircuitState.is_open (s : CircuitState) (now : Nat) : Bool × CircuitState :=
  match s.open_until with
  | some u =>
      if now < u then (true, s)
      else ((false : Bool),
            CircuitState.decay { s with open_until := none, failure_count := 0 } now)
  | none => (false, CircuitState.decay s now)

/-- CircuitState::is_open_now(&self, now): pure read, no mutation. -/
def CircuitState.is_open_now (s : CircuitState) (now : Nat) : Bool :=
  match s.open_until with
  | some u => decide (now < u)
  | none => false

/-- compute_backoff_duration (federation.rs): base is clamped below at 10 ms,
the cap at max(backoff_max_ms, base); the exponent is capped at 16; jitter is
a uniform draw in [0, min(base, cap)], modelled as seed % (jitter_max + 1);
result floored at 1 ms.  All u64 arithmetic saturates. -/
def compute_backoff_duration (settings : FederationSettings) (attempt : Nat)
    (jitterSeed : Nat) : Nat :=
  let base := max settings.backoff_initial_ms 10
  let max_backoff := max settings.backoff_max_ms base
  let power := min attempt 16
  let multiplier := 2 ^ power
  let backoff_ms := satMul64 base multiplier
  let backoff_ms := if max_backoff < backoff_ms then max_backoff else backoff_ms
  let jitter_max := min base max_backoff
  let jitter := jitterSeed % (jitter_max + 1)
  max (satAdd64 backoff_ms jitter) 1

/-- CircuitState::register_failure: decay check first (failure_count only),
then increment failure_count and stamp last_failure; if the count reaches
max(threshold, 1), open the circuit for a backoff duration and return it. -/
def CircuitState.register_failure (s : CircuitState) (now : Nat)
    (settings : FederationSettings) (jitterSeed : Nat) : Option Nat × CircuitState :=
  let s1 :=
    match s.last_failure with
    | some last => if s.reset_after ≤ now - last then { s with failure_count := 0 } else s
    | none => s
  let s2 := { s1 with failure_count := satAdd32 s1.failure_count 1, last_failure := some now }
  let threshold := max settings.circuit_breaker_threshold 1
  if threshold ≤ s2.failure_count then
    let penalty_attempt := s2.failure_count - threshold
    let duration := compute_backoff_duration settings penalty_attempt jitterSeed
    (some duration, { s2 with open_until := some (now + duration) })
  else
    (none, s2)

/-- CircuitState::register_success: unconditional full reset. -/
def CircuitState.register_success (s : CircuitState) : CircuitState :=
  { s with failure_count := 0, open_until := none, last_failure := none }

/-- An operation of the CircuitState API together with the instant at which
it is invoked (register_success takes no time argument in the source; the
time here is the ambient instant of the call). -/
inductive CBOp where
  | op_is_open (now : Nat)
  | op_register_failure (now : Nat) (settings : FederationSettings) (jitterSeed : Nat)
  | op_register_success (now : Nat)
deriving Repr

/-- The instant at which a CircuitState operation is invoked. -/
def CBOp.now : CBOp → Nat
  | .op_is_open n => n
  | .op_register_failure n _ _ => n
  | .op_register_success n => n

/-- State effect of one CircuitState operation. -/
def CircuitState.apply_op (s : CircuitState) : CBOp → CircuitState
  | .op_is_open n => (s.is_open n).2
  | .op_register_failure n st j => (s.register_failure n st j).2
  | .op_register_success _ => s.register_success

/-! ## JSON values (serde_json::Value) -/

inductive Json where
  | null
  | bool (b : Bool)
  | num (n : Int)
  | str (s : String)
  | arr (xs : List Json)
  | obj (fields : List (String × Json))
deriving Repr, Inhabited

/-! ## Tool registry (registry.rs) -/

inductive ToolSource where
  | Local
  | Federated (server_id : String) (server_url : String)
deriving Repr, DecidableEq

/-- ToolSpec (registry.rs).  The hash digest is modelled as a Nat; timestamps
as Nat. -/
structure ToolSpec where
  name : String
  description : String
  input_schema : Json
  output_schema : Option Json
  source : ToolSource
  spec_version : String
  spec_hash : Nat
  last_updated : Nat
  metadata : Json
deriving Repr

inductive RegistryChangeEvent where
  | ToolAdded (name : String)
  | ToolUpdated (name : String)
  | ToolRemoved (name : String)
  | SourceAdded (server_id : String)
  | SourceRemoved (server_id : String)
deriving Repr, DecidableEq

/-- str::as_bytes, modelled as the list of character codes. -/
def strBytes (s : String) : List Nat := s.toList.map Char.toNat

/-- ToolRegistry::compute_tool_hash: SHA-256 over the serialized input schema,
then the serialized output schema when present, then the name and the
description bytes.  The SHA-256 digest and the JSON serialization are
abstracted as parameters hash / ser: the claims depend only on which fields
feed the digest, not on its internals. -/
def compute_tool_hash (ser : Json → List Nat) (hash : List Nat → Nat)
    (tool : ToolSpec) : Nat :=
  hash (ser tool.input_schema ++
        (match tool.output_schema with | some o => ser o | none => []) ++
        strBytes tool.name ++ strBytes tool.description)

/-- ToolRegistry::register_tool: computes the content hash, stamps
last_updated, inserts replacing any entry of the same name, and emits
ToolUpdated (existing key) or ToolAdded (fresh key).  The registry map is
modelled as an association list with unique keys. -/
def register_tool (ser : Json → List Nat) (hash : List Nat → Nat)
    (reg : List (String × ToolSpec)) (tool : ToolSpec) (now : Nat) :
    List (String × ToolSpec) × RegistryChangeEvent :=
  let is_update := reg.any (fun e => e.1 == tool.name)
  let tool' := { tool with spec_hash := compute_tool_hash ser hash tool, last_updated := now }
  let reg' := reg.filter (fun e => e.1 ≠ tool.name) ++ [(tool.name, tool')]
  (reg', if is_update then .ToolUpdated tool.name else .ToolAdded tool.name)

/-- The source-matching predicate of remove_tools_from_source and
get_tools_from_source: a Federated spec matches its server_id; a Local spec
matches the literal id "local". -/
def source_matches (src : ToolSource) (server_id : String) : Bool :=
  match src with
  | .Federated sid _ => sid == server_id
  | .Local => server_id == "local"

/-- ToolRegistry::remove_tools_from_source: two-phase scan-then-delete.
Returns the removed names, the new registry and the emitted events
(SourceRemoved only when something was removed). -/
def remove_tools_from_source (reg : List (String × ToolSpec)) (server_id : String) :
    List String × List (String × ToolSpec) × List RegistryChangeEvent :=
  let tools_to_remove := (reg.filter (fun e => source_matches e.2.source server_id)).map Prod.fst
  let reg' := tools_to_remove.foldl (fun r k => r.filter (fun e => e.1 ≠ k)) reg
  (tools_to_remove, reg',
   if tools_to_remove.isEmpty then [] else [.SourceRemoved server_id])

/-! ## Call forwarding (federation.rs, forward_to_downstream / route_tool_call) -/

/-- What the retry loop observes on one attempt: the is_connected check,
then call_tool's outcome. -/
inductive AttemptOutcome where
  | notConnected
  | transportErr (msg : String)
  | respErr (msg : String)
  | respOk (result : Option Json)
deriving Repr

/-- Errors surfaced by forward_to_downstream / route_tool_call. -/
inductive FwdError where
  | toolNotFound (name : String)
  | serverNotFound (server_id : String)
  | circuitOpen (retry_after : Option Nat)
  | notConnected (server_id : String)
  | circuitOpenedAfterError (duration : Nat)
  | downstreamError (msg : String)
  | transportError (msg : String)
  | unknown
deriving Repr

/-- Instrumentation log of the externally visible actions of the forwarding
path: an issued RPC (network I/O), a backoff sleep, a recorded circuit
failure or success. -/
inductive FwdAction where
  | rpcCall
  | slept (ms : Nat)
  | recordedFailure
  | recordedSuccess
deriving Repr, DecidableEq

def FwdAction.isRpc : FwdAction → Bool
  | .rpcCall => true
  | _ => false

def FwdAction.isSleep : FwdAction → Bool
  | .slept _ => true
  | _ => false

def FwdAction.isFailure : FwdAction → Bool
  | .recordedFailure => true
  | _ => false

/-- The federation counters touched by the forwarding and sync paths. -/
structure FwdMetrics where
  federation_errors : Nat
  tool_calls_forwarded : Nat
  circuit_open_skips : Nat
deriving Repr, DecidableEq

structure FwdOut where
  result : Except FwdError Json
  tracker : Option CircuitState
  metrics : FwdMetrics
  log : List FwdAction

/-- record_failure_shared: register the failure on the backend's circuit
entry, creating a fresh CircuitState when the tracker has none, and return
the optional just-opened duration with the stored state. -/
def record_failure_shared (settings : FederationSettings) (tracker : Option CircuitState)
    (now jitterSeed : Nat) : Option Nat × CircuitState :=
  let st := tracker.getD (CircuitState.new settings.circuit_breaker_reset_seconds)
  st.register_failure now settings jitterSeed

/-- record_success_shared: register_success only when an entry exists. -/
def record_success_shared (tracker : Option CircuitState) : Option CircuitState :=
  tracker.map CircuitState.register_success

/-- The default payload returned for a clean response with no result field. -/
def jsonStatusSuccess : Json := .obj [("status", .str "success")]

/-- The retry loop of forward_to_downstream.  Attempts run at indices
attempt, attempt+1, ..., max_attempts; fuel = max_attempts + 1 - attempt is
the number of remaining iterations.  outcomes gives each attempt's observed
result; fail_times the Instant::now() of each failure record; fail_seeds and
sleep_seeds the jitter draws of the circuit-opening backoff and of the
inter-attempt sleep. -/
def fwd_loop (settings : FederationSettings) (server_id : String)
    (outcomes : Nat → AttemptOutcome) (fail_times fail_seeds sleep_seeds : Nat → Nat) :
    Nat → Nat → Option CircuitState → FwdMetrics → List FwdAction →
    Option FwdError → FwdOut
  | 0, _, tracker, m, log, lastErr =>
      { result := .error (lastErr.getD .unknown), tracker := tracker, metrics := m, log := log }
  | fuel + 1, attempt, tracker, m, log, lastErr =>
      match outcomes attempt with
      | .notConnected =>
          { result := .error (.notConnected server_id),
            tracker := some (record_failure_shared settings tracker (fail_times attempt)
                               (fail_seeds attempt)).2,
            metrics := { m with federation_errors := m.federation_errors + 1 },
            log := log ++ [.recordedFailure] }
      | .respOk r =>
          { result := .ok (r.getD jsonStatusSuccess),
            tracker := record_success_shared tracker,
            metrics := { m with tool_calls_forwarded := m.tool_calls_forwarded + 1 },
            log := log ++ [.rpcCall, .recordedSuccess] }
      | .respErr msg =>
          match (record_failure_shared settings tracker (fail_times attempt)
                   (fail_seeds attempt)).1 with
          | some dur =>
              { result := .error (.circuitOpenedAfterError dur),
                tracker := some (record_failure_shared settings tracker (fail_times attempt)
                                   (fail_seeds attempt)).2,
                metrics := { m with federation_errors := m.federation_errors + 1 },
                log := log ++ [.rpcCall, .recordedFailure] }
          | none =>
              if fuel = 0 then
                { result := .error (.downstreamError msg),
                  tracker := some (record_failure_shared settings tracker (fail_times attempt)
                                     (fail_seeds attempt)).2,
                  metrics := { m with federation_errors := m.federation_errors + 1 },
                  log := log ++ [.rpcCall, .recordedFailure] }
              else
                fwd_loop settings server_id outcomes fail_times fail_seeds sleep_seeds
                  fuel (attempt + 1)
                  (some (record_failure_shared settings tracker (fail_times attempt)
                           (fail_seeds attempt)).2)
                  { m with federation_errors := m.federation_errors + 1 }
                  (log ++ [.rpcCall, .recordedFailure,
                           .slept (compute_backoff_duration settings (attempt + 1)
                                     (sleep_seeds (attempt + 1)))])
                  (some (.downstreamError msg))
      | .transportErr msg =>
          match (record_failure_shared settings tracker (fail_times attempt)
                   (fail_seeds attempt)).1 with
          | some dur =>
              { result := .error (.circuitOpenedAfterError dur),
                tracker := some (record_failure_shared settings tracker (fail_times attempt)
                                   (fail_seeds attempt)).2,
                metrics := { m with federation_errors := m.federation_errors + 1 },
                log := log ++ [.rpcCall, .recordedFailure] }
          | none =>
              if fuel = 0 then
                { result := .error (.transportError msg),
                  tracker := some (record_failure_shared settings tracker (fail_times attempt)
                                     (fail_seeds attempt)).2,
                  metrics := { m with federation_errors := m.federation_errors + 1 },
                  log := log ++ [.rpcCall, .recordedFailure] }
              else
                fwd_loop settings server_id outcomes fail_times fail_seeds sleep_seeds
                  fuel (attempt + 1)
                  (some (record_failure_shared settings tracker (fail_times attempt)
                           (fail_seeds attempt)).2)
                  { m with federation_errors := m.federation_errors + 1 }
                  (log ++ [.rpcCall, .recordedFailure,
                           .slept (compute_backoff_duration settings (attempt + 1)
                                     (sleep_seeds (attempt + 1)))])
                  (some (.transportError msg))

/-- forward_to_downstream: client lookup, mutable pre-flight circuit check
(fast-fail with the remaining cooldown when open, no attempt made), then the
bounded retry loop with max(1, max_retries) + 1 attempts. -/
def forward_to_downstream (settings : FederationSettings) (server_id : String)
    (client_exists : Bool) (tracker : Option CircuitState) (now : Nat)
    (outcomes : Nat → AttemptOutcome) (fail_times fail_seeds sleep_seeds : Nat → Nat)
    (m : FwdMetrics) : FwdOut :=
  if client_exists then
    match tracker with
    | some st =>
        match st.is_open now with
        | (true, st') =>
            { result := .error (.circuitOpen (st'.open_until.map (fun u => u - now))),
              tracker := some st',
              metrics := { m with circuit_open_skips := m.circuit_open_skips + 1 },
              log := [] }
        | (false, st') =>
            fwd_loop settings server_id outcomes fail_times fail_seeds sleep_seeds
              (max 1 settings.max_retries + 1) 0 (some st') m [] none
    | none =>
        fwd_loop settings server_id outcomes fail_times fail_seeds sleep_seeds
          (max 1 settings.max_retries + 1) 0 none m [] none
  else
    { result := .error (.serverNotFound server_id), tracker := tracker, metrics := m, log := [] }

/-- Registry read used by routing (ToolRegistry::get_tool). -/
def get_tool (reg : List (String × ToolSpec)) (name : String) : Option ToolSpec :=
  (reg.find? (fun e => e.1 == name)).map Prod.snd

/-- route_tool_call in Execute mode (federation.rs): registry lookup, then
local execution or forwarding to the tool's backend via execute_tool_call.
Plan/Hybrid build an ExecutionPlan from a fresh UUID and the wall clock and
are not needed by the claims; Execute is the mode they exercise. -/
def route_tool_call_execute (reg : List (String × ToolSpec)) (clients : List String)
    (settings : FederationSettings) (trackers : String → Option CircuitState)
    (tool_name : String) (now : Nat) (outcomes : Nat → AttemptOutcome)
    (fail_times fail_seeds sleep_seeds : Nat → Nat) (m : FwdMetrics) : FwdOut :=
  match get_tool reg tool_name with
  | none =>
      { result := .error (.toolNotFound tool_name), tracker := none, metrics := m, log := [] }
  | some tool =>
      match tool.source with
      | .Local =>
          { result := .ok (.obj [("status", .str "success"), ("tool", .str tool.name),
              ("result", .str "Local execution completed"), ("source", .str "local")]),
            tracker := none, metrics := m, log := [] }
      | .Federated sid _ =>
          forward_to_downstream settings sid (clients.contains sid) (trackers sid) now
            outcomes fail_times fail_seeds sleep_seeds m

/-- A concrete configuration with the default circuit threshold 3, used to
instantiate hypotheses of the general theorems on concrete inputs. -/
def settings_threshold3 : FederationSettings :=
  { max_retries := 3, tool_cache_ttl_seconds := 300, circuit_breaker_threshold := 3,
    circuit_breaker_reset_seconds := 180, backoff_initial_ms := 250, backoff_max_ms := 5000 }

/-- A concrete federated tool spec on backend B. -/
def sample_fed_tool : ToolSpec :=
  { name := "t", description := "", input_schema := .obj [], output_schema := none,
    source := .Federated "B" "u", spec_version := "1", spec_hash := 0,
    last_updated := 0, metadata := .null }

/-! ### C10: a not-connected report aborts the retry loop at once -/

/-- Circuit-closed invariant carried through the retry loop: the tracker
entry, when present, has at most c recorded failures and no open window. -/
def track_ok (tracker : Option CircuitState) (c : Nat) : Prop :=
  match tracker with
  | none => True
  | some s => s.failure_count ≤ c ∧ s.open_until = none

/-! ## Tool sync with the content-hash cache (federation.rs, sync_server_tools) -/

structure ToolCacheEntry where
  spec_hash : Nat
  expires_at : Nat
  tool_count : Nat
deriving Repr, DecidableEq

/-- What the fetch phase of a sync observes (is_connected check, initialize,
tools/list RPC, response shape). -/
inductive SyncFetch where
  | notConnected
  | listToolsErr (msg : String)
  | respErr (msg : String)
  | noResult
  | badFormat
  | toolsPayload (tools : List Json)

/-- Field lookup on a JSON object (Value::get). -/
def Json.getField (j : Json) (key : String) : Option Json :=
  match j with
  | .obj fields => (fields.find? (fun f => f.1 == key)).map Prod.snd
  | _ => none

/-- Value::as_str. -/
def Json.asStr : Json → Option String
  | .str s => some s
  | _ => none

/-- parse_tool_spec (federation.rs): name is required and must be a string;
description defaults to ""; inputSchema defaults to {"type":"object"};
outputSchema and metadata are optional; the source is Federated with the
placeholder URL; the hash is left for the registry to compute. -/
def parse_tool_spec (tool_data : Json) (server_id : String) (now : Nat) : Option ToolSpec :=
  match (tool_data.getField "name").bind Json.asStr with
  | none => none
  | some name =>
      some { name := name
             description := ((tool_data.getField "description").bind Json.asStr).getD ""
             input_schema := (tool_data.getField "inputSchema").getD
               (.obj [("type", .str "object")])
             output_schema := tool_data.getField "outputSchema"
             source := .Federated server_id ("server://" ++ server_id)
             spec_version := "1.0.0"
             spec_hash := 0
             last_updated := now
             metadata := (tool_data.getField "metadata").getD (.obj []) }

structure SyncOut where
  result : Except String Nat
  tracker : Option CircuitState
  cache : Option ToolCacheEntry
  registry : List (String × ToolSpec)
  events : List RegistryChangeEvent
  metrics : FwdMetrics

/-- The cache-miss path of sync_server_tools: replace-by-source in the
registry, register every parseable fetched tool, refresh the cache entry when
caching is enabled (the old entry stays when TTL = 0), and record a circuit
success. -/
def sync_register (settings : FederationSettings) (server_id : String)
    (ser : Json → List Nat) (hash : List Nat → Nat) (spec_hash : Nat)
    (tracker : Option CircuitState) (old_cache : Option ToolCacheEntry)
    (registry : List (String × ToolSpec)) (tools : List Json)
    (reg_now insert_now : Nat) (m : FwdMetrics) : SyncOut :=
  let rem := remove_tools_from_source registry server_id
  let step := tools.foldl
    (fun (acc : List (String × ToolSpec) × List RegistryChangeEvent × Nat) tool_data =>
      match parse_tool_spec tool_data server_id reg_now with
      | some spec =>
          let r := register_tool ser hash acc.1 spec reg_now
          (r.1, acc.2.1 ++ [r.2], acc.2.2 + 1)
      | none => acc)
    (rem.2.1, [], 0)
  { result := .ok step.2.2
    tracker := record_success_shared tracker
    cache :=
      if settings.tool_cache_ttl_seconds ≠ 0 then
        some { spec_hash := spec_hash,
               expires_at := insert_now + max settings.tool_cache_ttl_seconds 1 * 1000,
               tool_count := step.2.2 }
      else old_cache
    registry := step.1
    events := rem.2.2 ++ step.2.1
    metrics := m }

/-- sync_server_tools (federation.rs) for one backend: mutable circuit
pre-check (a skip is counted when open), fetch, content hash of the
serialized payload (hashFn abstracts sha256 of serde_json::to_vec), cache
check, then either the zero-mutation cache-hit path (slide expiry, circuit
success, cached count) or the registry-replace path.  now is the Instant
captured on entry; insert_now the Instant::now() of the cache insert;
reg_now the Utc::now() used to stamp registrations. -/
def sync_server_tools (settings : FederationSettings) (server_id : String)
    (hashFn : List Json → Nat) (ser : Json → List Nat) (hash : List Nat → Nat)
    (tracker : Option CircuitState) (cache : Option ToolCacheEntry)
    (registry : List (String × ToolSpec)) (fetch : SyncFetch)
    (now insert_now reg_now fail_time fail_seed : Nat) (m : FwdMetrics) : SyncOut :=
  let pre : Bool × Option CircuitState :=
    match tracker with
    | some st => ((st.is_open now).1, some (st.is_open now).2)
    | none => (false, none)
  if pre.1 then
    { result := .ok 0, tracker := pre.2, cache := cache, registry := registry, events := [],
      metrics := { m with circuit_open_skips := m.circuit_open_skips + 1 } }
  else
    match fetch with
    | .notConnected =>
        { result := .error ("Server " ++ server_id ++ " is not connected"),
          tracker := some (record_failure_shared settings pre.2 fail_time fail_seed).2,
          cache := cache, registry := registry, events := [],
          metrics := { m with federation_errors := m.federation_errors + 1 } }
    | .listToolsErr msg =>
        { result := .error msg, tracker := pre.2, cache := cache, registry := registry,
          events := [], metrics := m }
    | .respErr msg =>
        { result := .error ("Server " ++ server_id ++ " returned error: " ++ msg),
          tracker := some (record_failure_shared settings pre.2 fail_time fail_seed).2,
          cache := cache, registry := registry, events := [],
          metrics := { m with federation_errors := m.federation_errors + 1 } }
    | .noResult =>
        { result := .error ("No tools data from server " ++ server_id),
          tracker := pre.2, cache := cache, registry := registry, events := [], metrics := m }
    | .badFormat =>
        { result := .error ("Invalid tools format from server " ++ server_id),
          tracker := pre.2, cache := cache, registry := registry, events := [], metrics := m }
    | .toolsPayload tools =>
        match cache with
        | some entry =>
            if settings.tool_cache_ttl_seconds ≠ 0 ∧ entry.spec_hash = hashFn tools ∧
                now < entry.expires_at then
              { result := .ok entry.tool_count
                tracker := record_success_shared pre.2
                cache := some { entry with
                  expires_at := now + max settings.tool_cache_ttl_seconds 1 * 1000 }
                registry := registry
                events := []
                metrics := m }
            else
              sync_register settings server_id ser hash (hashFn tools) pre.2 (some entry)
                registry tools reg_now insert_now m
        | none =>
            sync_register settings server_id ser hash (hashFn tools) pre.2 none
              registry tools reg_now insert_now m

/-- Whether the sync pre-flight circuit check reports the circuit open. -/
def sync_precheck_open (tracker : Option CircuitState) (now : Nat) : Bool :=
  match tracker with
  | some st => (st.is_open now).1
  | none => false

/-- The tracker entry after the sync pre-flight circuit check (is_open
mutates the stored state). -/
def sync_precheck (tracker : Option CircuitState) (now : Nat) : Option CircuitState :=
  match tracker with
  | some st => some (st.is_open now).2
  | none => none

/-! ## Downstream client connection loop (client.rs, connection_task) -/

/-- A pending request entry: correlation id, sent-at timestamp, timeout. -/
structure PEntry where
  id : String
  sent_at : Nat
  timeout : Nat
deriving Repr, DecidableEq

/-- How a pending request's completion handle was fired. -/
inductive CompKind where
  | response
  | timedOut
  | connClosed
deriving Repr, DecidableEq

/-- One event observed by the select loop of connection_task: a command from
the request channel, an inbound WebSocket message, or a sweep tick.  cmdSend
carries the request id when it is a JSON string (only those register a
pending entry), the send timestamp and whether the socket write succeeded.
wsText carries the parse outcome: none = malformed JSON-RPC (error counted,
dropped); some none = parsed but id not a string (dropped); some (some s) =
parsed response with correlation id s. -/
inductive Ev where
  | cmdSend (id : Option String) (sent_at : Nat) (write_ok : Bool)
  | cmdDisconnect
  | cmdClosed
  | wsText (parsed : Option (Option String))
  | wsBinary
  | wsPing (pong_ok : Bool)
  | wsPong
  | wsClose
  | wsFrame
  | wsErr
  | wsClosed
  | tick (now : Nat)
deriving Repr

/-- Loop state: the pending map, the fired completions (instrumented with how
each fired), the ids ever registered (instrumentation), and health counters. -/
structure ConnState where
  pending : List PEntry
  completions : List (String × CompKind)
  registered : List String
  message_count : Nat
  error_count : Nat
deriving Repr

def ConnState.init : ConnState :=
  { pending := [], completions := [], registered := [], message_count := 0, error_count := 0 }

/-- One iteration of the select loop; returns the new state and whether the
loop broke.  Inserting an existing id overwrites (HashMap::insert); a
response whose id has no pending entry is dropped; the sweep fails and
removes every entry whose individual timeout has elapsed, counting an error
for each. -/
def conn_step (cfg_timeout : Nat) (st : ConnState) : Ev → ConnState × Bool
  | .cmdSend id sent_at write_ok =>
      let st1 :=
        match id with
        | some s =>
            { st with
              pending := st.pending.filter (fun p => p.id ≠ s) ++ [⟨s, sent_at, cfg_timeout⟩],
              registered := st.registered ++ [s] }
        | none => st
      if write_ok then ({ st1 with message_count := st1.message_count + 1 }, false)
      else (st1, true)
  | .cmdDisconnect => (st, true)
  | .cmdClosed => (st, true)
  | .wsText parsed =>
      match parsed with
      | none => ({ st with error_count := st.error_count + 1 }, false)
      | some none => (st, false)
      | some (some s) =>
          if st.pending.any (fun p => p.id = s) then
            ({ st with pending := st.pending.filter (fun p => p.id ≠ s),
                       completions := st.completions ++ [(s, .response)] }, false)
          else (st, false)
  | .wsBinary => (st, false)
  | .wsPing pong_ok => (st, !pong_ok)
  | .wsPong => (st, false)
  | .wsClose => (st, true)
  | .wsFrame => (st, false)
  | .wsErr => ({ st with error_count := st.error_count + 1 }, true)
  | .wsClosed => (st, true)
  | .tick now =>
      ({ st with
         pending := st.pending.filter (fun p => ¬ (p.timeout < now - p.sent_at)),
         completions := st.completions ++
           (st.pending.filter (fun p => p.timeout < now - p.sent_at)).map
             (fun p => (p.id, CompKind.timedOut)),
         error_count := st.error_count +
           (st.pending.filter (fun p => p.timeout < now - p.sent_at)).length }, false)

/-- The select loop over a finite trace: stop at the first break. -/
def run_loop (cfg_timeout : Nat) : ConnState → List Ev → ConnState × Bool
  | st, [] => (st, false)
  | st, e :: rest =>
      if (conn_step cfg_timeout st e).2 then ((conn_step cfg_timeout st e).1, true)
      else run_loop cfg_timeout (conn_step cfg_timeout st e).1 rest

/-- Loop exit: every still-pending request is failed with a connection-closed
error and the pending map is dropped. -/
def conn_teardown (st : ConnState) : ConnState :=
  { st with pending := [],
            completions := st.completions ++ st.pending.map (fun p => (p.id, CompKind.connClosed)) }

/-- connection_task over a finite trace of observed events: run the loop; the
teardown runs exactly when the loop broke (the task ended). -/
def connection_task (cfg_timeout : Nat) (evs : List Ev) : ConnState × Bool :=
  if (run_loop cfg_timeout ConnState.init evs).2 then
    (conn_teardown (run_loop cfg_timeout ConnState.init evs).1, true)
  else ((run_loop cfg_timeout ConnState.init evs).1, false)

/-- Occurrences of an id in the pending map. -/
def pcount (l : List PEntry) (s : String) : Nat := l.countP (fun p => p.id = s)

/-- Completions fired for an id. -/
def ccount (l : List (String × CompKind)) (s : String) : Nat := l.countP (fun c => c.1 = s)

/-- Occurrences of an id in the registration log. -/
def rcount (l : List String) (s : String) : Nat := l.countP (fun t => t = s)

/-- The ids registered by the Send commands of a trace. -/
def send_ids : List Ev → List String
  | [] => []
  | .cmdSend (some s) _ _ :: rest => s :: send_ids rest
  | _ :: rest => send_ids rest

/-- The exactly-once invariant of the pending map: for every id, pending
occurrences plus fired completions equal the registrations, and an id is
pending at most once. -/
def ConnInv (st : ConnState) : Prop :=
  ∀ s : String, pcount st.pending s + ccount st.completions s = rcount st.registered s ∧
    pcount st.pending s ≤ 1

/-! ### Helper lemmas about is_open / decay -/

theorem decay_open_until (s : CircuitState) (now : Nat) :
    (s.decay now).open_until = s.open_until := by
  unfold CircuitState.decay
  cases s.last_failure <;> simp <;> split <;> rfl

theorem decay_failure_count_zero (s : CircuitState) (now : Nat)
    (h : s.failure_count = 0) : (s.decay now).failure_count = 0 := by
  unfold CircuitState.decay
  cases s.last_failure <;> simp [h] <;> split <;> simp [h]

/-- C2: for every CircuitState and time, is_open returns true iff open_until
is set and now < open_until; and when open_until is set but elapsed, the call
clears open_until and resets failure_count to zero. -/
theorem is_open_spec (s : CircuitState) (now : Nat) :
    ((s.is_open now).1 = true ↔ ∃ u, s.open_until = some u ∧ now < u) ∧
    (∀ u, s.open_until = some u → u ≤ now →
      (s.is_open now).2.open_until = none ∧ (s.is_open now).2.failure_count = 0) := by
  constructor
  · unfold CircuitState.is_open
    cases h : s.open_until with
    | none => simp [h]
    | some u =>
        by_cases hlt : now < u
        · simp [h, hlt]
        · simp [h, hlt]
  · intro u hu hle
    unfold CircuitState.is_open
    rw [hu]
    have hnlt : ¬ now < u := by omega
    simp only [hnlt, if_false]
    constructor
    · rw [decay_open_until]
    · exact decay_failure_count_zero _ _ rfl

/-- Witness for C2 at a concrete elapsed-window state. -/
theorem is_open_spec_witness :
    ((({ failure_count := 2, last_failure := some 5, open_until := some 10,
         reset_after := 1000 } : CircuitState).is_open 12).2.open_until = none ∧
     (({ failure_count := 2, last_failure := some 5, open_until := some 10,
         reset_after := 1000 } : CircuitState).is_open 12).2.failure_count = 0) :=
  (is_open_spec _ 12).2 10 rfl (by decide)

/-- C3 counterexample: the claim that no operation clears open_until before
now reaches it is false: register_success at time 50 clears an open window
that runs until 200. -/
theorem open_until_monotonic_counterexample :
    ¬ (∀ (s : CircuitState) (op : CBOp) (u : Nat),
        s.open_until = some u → (s.apply_op op).open_until = none → u ≤ op.now) := by
  intro h
  have h50 := h { failure_count := 3, last_failure := some 0, open_until := some 200,
                  reset_after := 1000 }
      (.op_register_success 50) 200 rfl (by decide)
  simp [CBOp.now] at h50

/-- C3 amended: once open_until is set, is_open clears it only when
now >= open_until and register_failure never clears it; register_success
clears it unconditionally (full recovery, at any time). -/
theorem open_until_clear_conditions (s : CircuitState) (u : Nat)
    (h : s.open_until = some u) :
    (∀ now, (s.is_open now).2.open_until = none → u ≤ now) ∧
    (∀ now settings j, (s.register_failure now settings j).2.open_until ≠ none) ∧
    s.register_success.open_until = none := by
  refine ⟨?_, ?_, rfl⟩
  · intro now hcl
    by_contra hlt
    have hlt' : now < u := by omega
    unfold CircuitState.is_open at hcl
    rw [h] at hcl
    simp [hlt'] at hcl
    rw [h] at hcl
    exact Option.noConfusion hcl
  · intro now settings j
    unfold CircuitState.register_failure
    cases hl : s.last_failure <;> simp [hl]
    · split <;> simp [h]
    · split <;> split <;> simp [h]

/-- Witness for C3's amended claim at a concrete open state. -/
theorem open_until_clear_conditions_witness :
    (((({ failure_count := 3, last_failure := some 0, open_until := some 200,
          reset_after := 1000 } : CircuitState).is_open 150).2.open_until = none → 200 ≤ 150) ∧
      (({ failure_count := 3, last_failure := some 0, open_until := some 200,
          reset_after := 1000 } : CircuitState).register_success.open_until = none)) :=
  ⟨(open_until_clear_conditions _ 200 rfl).1 150,
   (open_until_clear_conditions _ 200 rfl).2.2⟩

/-! ### C4: the backoff formula -/

/-- compute_backoff_duration written out without lets (definitional). -/
theorem compute_backoff_duration_eq (settings : FederationSettings) (attempt seed : Nat) :
    compute_backoff_duration settings attempt seed =
      max (satAdd64
            (if max settings.backoff_max_ms (max settings.backoff_initial_ms 10) <
                satMul64 (max settings.backoff_initial_ms 10) (2 ^ min attempt 16) then
               max settings.backoff_max_ms (max settings.backoff_initial_ms 10)
             else satMul64 (max settings.backoff_initial_ms 10) (2 ^ min attempt 16))
            (seed % (min (max settings.backoff_initial_ms 10)
                         (max settings.backoff_max_ms (max settings.backoff_initial_ms 10)) + 1))) 1 :=
  rfl

/-- C4 counterexample: with configured initial backoff 5 ms and max 1000 ms, at
attempt 0 a jitter draw of 10 yields 20 ms, outside the claimed range
[min(5*2^0,1000), min(5*2^0,1000) + min(5,1000)] = [5, 10] — because the code
clamps the base at 10 ms before both the exponential part and the jitter bound. -/
theorem compute_backoff_counterexample :
    ¬ ∃ j, j ≤ min 5 1000 ∧
      compute_backoff_duration
        { max_retries := 3, tool_cache_ttl_seconds := 300, circuit_breaker_threshold := 3,
          circuit_breaker_reset_seconds := 180, backoff_initial_ms := 5, backoff_max_ms := 1000 }
        0 10
      = max (min (5 * 2 ^ min 0 16) 1000 + j) 1 := by
  rintro ⟨j, hj, he⟩
  have h20 : compute_backoff_duration
      { max_retries := 3, tool_cache_ttl_seconds := 300, circuit_breaker_threshold := 3,
        circuit_breaker_reset_seconds := 180, backoff_initial_ms := 5, backoff_max_ms := 1000 }
      0 10 = 20 := by decide
  rw [h20] at he
  norm_num at he
  omega

/-- C4 amended: compute_backoff_duration(attempt) equals
min(base * 2^min(attempt,16), maxB) plus a uniformly random jitter in
[0, base], floored at 1 ms, where base = max(configured initial, 10 ms) and
maxB = max(configured max, base) — assuming maxB + base fits in u64, which
holds for every configuration whose sum of the two clamped settings is below
2^64 ms. -/
theorem compute_backoff_amended (settings : FederationSettings) (attempt seed : Nat)
    (hov : max settings.backoff_max_ms (max settings.backoff_initial_ms 10)
             + max settings.backoff_initial_ms 10 ≤ U64_MAX) :
    ∃ j, j ≤ max settings.backoff_initial_ms 10 ∧
      compute_backoff_duration settings attempt seed =
        max (min (max settings.backoff_initial_ms 10 * 2 ^ min attempt 16)
               (max settings.backoff_max_ms (max settings.backoff_initial_ms 10)) + j) 1 := by
  rw [compute_backoff_duration_eq]
  set base := max settings.backoff_initial_ms 10 with hbase
  set maxb := max settings.backoff_max_ms base with hmaxb
  have hbase10 : 10 ≤ base := le_max_right _ _
  have hbm : base ≤ maxb := le_max_right _ _
  rw [min_eq_left hbm]
  refine ⟨seed % (base + 1), ?_, ?_⟩
  · have := Nat.mod_lt seed (y := base + 1) (by omega)
    omega
  · simp only [satAdd64, satMul64]
    have hj : seed % (base + 1) ≤ base := by
      have := Nat.mod_lt seed (y := base + 1) (by omega)
      omega
    generalize hU : U64_MAX = u at hov ⊢
    generalize hbp : base * 2 ^ min attempt 16 = bp
    generalize hjj : seed % (base + 1) = j at hj ⊢
    split <;> omega

/-- Witness for C4's amended claim at the default configuration. -/
theorem compute_backoff_amended_witness :
    ∃ j, j ≤ max 250 10 ∧
      compute_backoff_duration
        { max_retries := 3, tool_cache_ttl_seconds := 300, circuit_breaker_threshold := 3,
          circuit_breaker_reset_seconds := 180, backoff_initial_ms := 250, backoff_max_ms := 5000 }
        2 7
      = max (min (max 250 10 * 2 ^ min 2 16) (max 5000 (max 250 10)) + j) 1 :=
  compute_backoff_amended
    { max_retries := 3, tool_cache_ttl_seconds := 300, circuit_breaker_threshold := 3,
      circuit_breaker_reset_seconds := 180, backoff_initial_ms := 250, backoff_max_ms := 5000 }
    2 7 (by decide)

/-! ### C8: remove_tools_from_source removes exactly the matching entries -/

theorem foldl_remove_keys (L : List String) (reg : List (String × ToolSpec)) :
    L.foldl (fun r k => r.filter (fun e => e.1 ≠ k)) reg
      = reg.filter (fun e => decide (e.1 ∉ L)) := by
  induction L generalizing reg with
  | nil => simp
  | cons k ks ih =>
      simp only [List.foldl_cons, ih, List.filter_filter]
      congr 1
      funext e
      by_cases h1 : e.1 = k <;> by_cases h2 : e.1 ∈ ks <;> simp [h1, h2]

theorem nodup_keys_eq {α β : Type} (l : List (α × β))
    (h : (l.map Prod.fst).Nodup) {k : α} {a b : β}
    (ha : (k, a) ∈ l) (hb : (k, b) ∈ l) : a = b := by
  induction l with
  | nil => cases ha
  | cons x xs ih =>
      rw [List.map_cons, List.nodup_cons] at h
      rcases List.mem_cons.mp ha with ha1 | ha1 <;>
        rcases List.mem_cons.mp hb with hb1 | hb1
      · exact congrArg Prod.snd (ha1.trans hb1.symm)
      · exfalso
        apply h.1
        rw [← ha1]
        exact List.mem_map.mpr ⟨(k, b), hb1, rfl⟩
      · exfalso
        apply h.1
        rw [← hb1]
        exact List.mem_map.mpr ⟨(k, a), ha1, rfl⟩
      · exact ih h.2 ha1 hb1

/-- C8: with unique keys (the DashMap invariant), remove_tools_from_source
deletes exactly the entries whose source matches the given id, reports their
names, and leaves every other entry in place with the same key and value. -/
theorem remove_tools_from_source_frame (reg : List (String × ToolSpec)) (server_id : String)
    (hnd : (reg.map Prod.fst).Nodup) :
    (∀ k spec, (k, spec) ∈ reg →
       (source_matches spec.source server_id = true →
          (k, spec) ∉ (remove_tools_from_source reg server_id).2.1 ∧
          k ∈ (remove_tools_from_source reg server_id).1) ∧
       (source_matches spec.source server_id = false →
          (k, spec) ∈ (remove_tools_from_source reg server_id).2.1)) ∧
    (∀ k spec, (k, spec) ∈ (remove_tools_from_source reg server_id).2.1 →
       (k, spec) ∈ reg ∧ source_matches spec.source server_id = false) := by
  have hrem : (remove_tools_from_source reg server_id).1
      = (reg.filter (fun e => source_matches e.2.source server_id)).map Prod.fst := rfl
  have hreg' : (remove_tools_from_source reg server_id).2.1
      = reg.filter (fun e =>
          decide (e.1 ∉ (reg.filter (fun e => source_matches e.2.source server_id)).map Prod.fst)) := by
    show (remove_tools_from_source reg server_id).2.1 = _
    unfold remove_tools_from_source
    exact foldl_remove_keys _ _
  have hmem_toRemove : ∀ k spec, (k, spec) ∈ reg →
      (k ∈ (reg.filter (fun e => source_matches e.2.source server_id)).map Prod.fst ↔
        source_matches spec.source server_id = true) := by
    intro k spec hks
    constructor
    · intro hk
      rcases List.mem_map.mp hk with ⟨e, he, hke⟩
      rcases List.mem_filter.mp he with ⟨he1, he2⟩
      have : e.2 = spec := by
        have := nodup_keys_eq reg hnd (k := k) (a := e.2) (b := spec) ?_ hks
        · exact this
        · rw [← hke]; exact he1
      rw [← this]; exact he2
    · intro hm
      exact List.mem_map.mpr ⟨(k, spec), List.mem_filter.mpr ⟨hks, hm⟩, rfl⟩
  constructor
  · intro k spec hks
    constructor
    · intro hm
      constructor
      · rw [hreg']
        intro hcontra
        rcases List.mem_filter.mp hcontra with ⟨_, h2⟩
        rw [decide_eq_true_iff] at h2
        exact h2 ((hmem_toRemove k spec hks).mpr hm)
      · rw [hrem]; exact (hmem_toRemove k spec hks).mpr hm
    · intro hm
      rw [hreg']
      refine List.mem_filter.mpr ⟨hks, ?_⟩
      rw [decide_eq_true_iff]
      intro hk
      rw [(hmem_toRemove k spec hks)] at hk
      rw [hm] at hk
      cases hk
  · intro k spec hks
    rw [hreg'] at hks
    rcases List.mem_filter.mp hks with ⟨h1, h2⟩
    refine ⟨h1, ?_⟩
    rw [decide_eq_true_iff] at h2
    by_contra hne
    have hm : source_matches spec.source server_id = true := by
      cases hsm : source_matches spec.source server_id
      · exact absurd hsm hne
      · rfl
    exact h2 ((hmem_toRemove k spec h1).mpr hm)

/-- Witness for C8 on a two-entry registry: the federated entry of server B is
removed, the local entry survives unchanged. -/
theorem remove_tools_from_source_frame_witness :
    (("t1", ({ name := "t1", description := "", input_schema := .obj [],
               output_schema := none, source := .Federated "B" "u", spec_version := "1",
               spec_hash := 0, last_updated := 0, metadata := .null } : ToolSpec)) ∉
      (remove_tools_from_source
        [("t1", { name := "t1", description := "", input_schema := .obj [],
                  output_schema := none, source := .Federated "B" "u", spec_version := "1",
                  spec_hash := 0, last_updated := 0, metadata := .null }),
         ("t2", { name := "t2", description := "", input_schema := .obj [],
                  output_schema := none, source := .Local, spec_version := "1",
                  spec_hash := 0, last_updated := 0, metadata := .null })] "B").2.1) ∧
    (("t2", ({ name := "t2", description := "", input_schema := .obj [],
               output_schema := none, source := .Local, spec_version := "1",
               spec_hash := 0, last_updated := 0, metadata := .null } : ToolSpec)) ∈
      (remove_tools_from_source
        [("t1", { name := "t1", description := "", input_schema := .obj [],
                  output_schema := none, source := .Federated "B" "u", spec_version := "1",
                  spec_hash := 0, last_updated := 0, metadata := .null }),
         ("t2", { name := "t2", description := "", input_schema := .obj [],
                  output_schema := none, source := .Local, spec_version := "1",
                  spec_hash := 0, last_updated := 0, metadata := .null })] "B").2.1) :=
  ⟨(((remove_tools_from_source_frame _ "B" (by decide)).1 "t1" _
      (by simp)).1 (by decide)).1,
   ((remove_tools_from_source_frame _ "B" (by decide)).1 "t2" _
      (by simp)).2 (by decide)⟩

/-! ### C9: the content hash is a pure function of four fields -/

/-- C9: for every serializer and digest, two ToolSpecs agreeing on name,
description, input schema and output schema receive the same content hash,
and register_tool stores exactly that hash on the inserted entry. -/
theorem tool_hash_pure (ser : Json → List Nat) (hash : List Nat → Nat)
    (t1 t2 : ToolSpec)
    (hn : t1.name = t2.name) (hd : t1.description = t2.description)
    (hi : t1.input_schema = t2.input_schema) (ho : t1.output_schema = t2.output_schema) :
    compute_tool_hash ser hash t1 = compute_tool_hash ser hash t2 ∧
    (∀ reg now, (t1.name,
        { t1 with spec_hash := compute_tool_hash ser hash t1, last_updated := now })
      ∈ (register_tool ser hash reg t1 now).1) := by
  constructor
  · unfold compute_tool_hash
    rw [hn, hd, hi, ho]
  · intro reg now
    unfold register_tool
    simp

/-- Witness for C9: two specs with identical (name, description, schemas) but
different source, version, stored hash, timestamp and metadata hash equal. -/
theorem tool_hash_pure_witness :
    compute_tool_hash (fun _ => [0]) (fun l => l.length)
      { name := "a", description := "d", input_schema := .obj [], output_schema := none,
        source := .Local, spec_version := "1", spec_hash := 0, last_updated := 0,
        metadata := .null }
    = compute_tool_hash (fun _ => [0]) (fun l => l.length)
      { name := "a", description := "d", input_schema := .obj [], output_schema := none,
        source := .Federated "B" "u", spec_version := "2", spec_hash := 7, last_updated := 9,
        metadata := .bool true } :=
  (tool_hash_pure (fun _ => [0]) (fun l => l.length) _ _ rfl rfl rfl rfl).1

/-! ### C6: two transport errors then a clean success -/

theorem u32max_val : U32_MAX = 4294967295 := by norm_num [U32_MAX]

/-- register_failure below threshold: returns none, does not open the
circuit, and the stored count stays at most one above the input count. -/
theorem register_failure_below_threshold (s : CircuitState) (now : Nat)
    (settings : FederationSettings) (j : Nat)
    (h : s.failure_count + 1 < max settings.circuit_breaker_threshold 1) :
    (s.register_failure now settings j).1 = none ∧
    (s.register_failure now settings j).2.failure_count ≤ s.failure_count + 1 ∧
    (s.register_failure now settings j).2.open_until = s.open_until := by
  unfold CircuitState.register_failure
  cases hl : s.last_failure with
  | none =>
      simp only [satAdd32, u32max_val]
      split
      · exfalso; omega
      · exact ⟨rfl, by dsimp only; omega, rfl⟩
  | some last =>
      simp only [satAdd32, u32max_val]
      split
      · split
        · next hcond =>
            exfalso
            try dsimp only at hcond
            omega
        · exact ⟨rfl, by dsimp only; omega, rfl⟩
      · split
        · next hcond =>
            exfalso
            try dsimp only at hcond
            omega
        · exact ⟨rfl, by dsimp only; omega, rfl⟩

/-- C6: with max_retries = 2, no circuit entry for the backend (circuit
closed), and a failure threshold of at least 3 (so that two failures cannot
open the circuit), two transport-error attempts followed by a clean response
make forward_to_downstream return the unwrapped result, leave the backend's
failure_count reset to 0, and increment the forwarded-call counter by one. -/
theorem forward_retry_then_success (settings : FederationSettings) (server_id : String)
    (hmr : settings.max_retries = 2) (hthr : 3 ≤ settings.circuit_breaker_threshold)
    (outcomes : Nat → AttemptOutcome) (v : Json) (msg1 msg2 : String)
    (h0 : outcomes 0 = .transportErr msg1) (h1 : outcomes 1 = .transportErr msg2)
    (h2 : outcomes 2 = .respOk (some v))
    (now : Nat) (fail_times fail_seeds sleep_seeds : Nat → Nat) (m : FwdMetrics) :
    (forward_to_downstream settings server_id true none now outcomes
        fail_times fail_seeds sleep_seeds m).result = .ok v ∧
    (∃ cs, (forward_to_downstream settings server_id true none now outcomes
        fail_times fail_seeds sleep_seeds m).tracker = some cs ∧ cs.failure_count = 0) ∧
    (forward_to_downstream settings server_id true none now outcomes
        fail_times fail_seeds sleep_seeds m).metrics.tool_calls_forwarded
      = m.tool_calls_forwarded + 1 := by
  have hb1 : (record_failure_shared settings none (fail_times 0) (fail_seeds 0)).1 = none ∧
      (record_failure_shared settings none (fail_times 0) (fail_seeds 0)).2.failure_count
        ≤ (CircuitState.new settings.circuit_breaker_reset_seconds).failure_count + 1 ∧
      (record_failure_shared settings none (fail_times 0) (fail_seeds 0)).2.open_until
        = (CircuitState.new settings.circuit_breaker_reset_seconds).open_until :=
    register_failure_below_threshold _ _ settings _
      (by have hz : (Option.getD none
              (CircuitState.new settings.circuit_breaker_reset_seconds)).failure_count = 0 := rfl
          omega)
  set cs1 := (record_failure_shared settings none (fail_times 0) (fail_seeds 0)).2 with hcs1
  have e1 : record_failure_shared settings none (fail_times 0) (fail_seeds 0) = (none, cs1) := by
    rw [← hb1.1, hcs1]
  have hfc1 : cs1.failure_count ≤ 1 := by
    have hz : (CircuitState.new settings.circuit_breaker_reset_seconds).failure_count = 0 := rfl
    have := hb1.2.1
    omega
  have hb2 : (record_failure_shared settings (some cs1) (fail_times 1) (fail_seeds 1)).1 = none ∧
      (record_failure_shared settings (some cs1) (fail_times 1) (fail_seeds 1)).2.failure_count
        ≤ cs1.failure_count + 1 ∧
      (record_failure_shared settings (some cs1) (fail_times 1) (fail_seeds 1)).2.open_until
        = cs1.open_until :=
    register_failure_below_threshold cs1 _ settings _ (by omega)
  set cs2 := (record_failure_shared settings (some cs1) (fail_times 1) (fail_seeds 1)).2 with hcs2
  have e2 : record_failure_shared settings (some cs1) (fail_times 1) (fail_seeds 1)
      = (none, cs2) := by
    rw [← hb2.1, hcs2]
  have hstep : forward_to_downstream settings server_id true none now outcomes
      fail_times fail_seeds sleep_seeds m
      = fwd_loop settings server_id outcomes fail_times fail_seeds sleep_seeds (2 + 1) 0
          none m [] none := by
    unfold forward_to_downstream
    rw [hmr]
    rfl
  rw [hstep]
  simp only [fwd_loop]
  rw [h0, e1]
  dsimp only
  rw [if_neg (by omega : ¬ (2 : Nat) = 0)]
  have h1' := h1
  have h2' := h2
  have e2' := e2
  rw [show (1 : Nat) = 0 + 1 from rfl] at h1' e2'
  rw [show (2 : Nat) = 0 + 1 + 1 from rfl] at h2'
  rw [h1', e2']
  dsimp only
  rw [if_neg (by omega : ¬ (1 : Nat) = 0)]
  rw [h2']
  exact ⟨rfl, ⟨cs2.register_success, rfl, rfl⟩, rfl⟩

/-- Witness for C6 at a concrete configuration and outcome trace. -/
theorem forward_retry_then_success_witness :
    (forward_to_downstream
        { max_retries := 2, tool_cache_ttl_seconds := 300, circuit_breaker_threshold := 3,
          circuit_breaker_reset_seconds := 180, backoff_initial_ms := 250, backoff_max_ms := 5000 }
        "B" true none 0
        (fun n => if n = 0 then .transportErr "e1" else if n = 1 then .transportErr "e2"
                  else .respOk (some (.str "ok")))
        (fun _ => 0) (fun _ => 0) (fun _ => 0)
        { federation_errors := 0, tool_calls_forwarded := 0, circuit_open_skips := 0 }).result
      = .ok (.str "ok") :=
  (forward_retry_then_success _ "B" rfl (by norm_num) _ _ "e1" "e2" rfl rfl rfl 0
    (fun _ => 0) (fun _ => 0) (fun _ => 0)
    { federation_errors := 0, tool_calls_forwarded := 0, circuit_open_skips := 0 }).1

/-! ### C5: three failures open the circuit; routing then fast-fails -/

theorem satAdd32_zero_one : satAdd32 0 1 = 1 := by norm_num [satAdd32, u32max_val]

theorem satAdd32_one_one : satAdd32 1 1 = 2 := by norm_num [satAdd32, u32max_val]

theorem satAdd32_two_one : satAdd32 2 1 = 3 := by norm_num [satAdd32, u32max_val]

/-- Every backoff duration is at least 1 ms. -/
theorem compute_backoff_pos (settings : FederationSettings) (attempt seed : Nat) :
    1 ≤ compute_backoff_duration settings attempt seed := by
  rw [compute_backoff_duration_eq]
  exact le_max_right _ _

/-- C5: with threshold 3 and a fresh circuit for backend B, three
register_failure calls within the reset window return none, none, then an
open duration; an immediately following route_tool_call in Execute mode
targeting a federated tool on B fails with a circuit-open error and performs
no network I/O at all (its action log is empty, so no RPC was issued). -/
theorem circuit_opens_and_blocks_routing (settings : FederationSettings)
    (hthr : settings.circuit_breaker_threshold = 3)
    (t1 t2 t3 t4 j1 j2 j3 : Nat) (h12 : t1 ≤ t2) (h23 : t2 ≤ t3) (h4 : t4 ≤ t3)
    (hw12 : t2 - t1 < max settings.circuit_breaker_reset_seconds 1 * 1000)
    (hw23 : t3 - t2 < max settings.circuit_breaker_reset_seconds 1 * 1000)
    (reg : List (String × ToolSpec)) (clients : List String) (tool_name url : String)
    (tool : ToolSpec) (hlook : get_tool reg tool_name = some tool)
    (hsrc : tool.source = .Federated "B" url) (hcl : clients.contains "B" = true)
    (outcomes : Nat → AttemptOutcome) (fail_times fail_seeds sleep_seeds : Nat → Nat)
    (m : FwdMetrics) :
    ((CircuitState.new settings.circuit_breaker_reset_seconds).register_failure
        t1 settings j1).1 = none ∧
    (((CircuitState.new settings.circuit_breaker_reset_seconds).register_failure
        t1 settings j1).2.register_failure t2 settings j2).1 = none ∧
    (∃ d, ((((CircuitState.new settings.circuit_breaker_reset_seconds).register_failure
        t1 settings j1).2.register_failure t2 settings j2).2.register_failure
        t3 settings j3).1 = some d) ∧
    (∃ retry_after, (route_tool_call_execute reg clients settings
        (fun _ => some (((((CircuitState.new settings.circuit_breaker_reset_seconds).register_failure
            t1 settings j1).2.register_failure t2 settings j2).2.register_failure
            t3 settings j3).2))
        tool_name t4 outcomes fail_times fail_seeds sleep_seeds m).result
      = .error (.circuitOpen retry_after)) ∧
    (route_tool_call_execute reg clients settings
        (fun _ => some (((((CircuitState.new settings.circuit_breaker_reset_seconds).register_failure
            t1 settings j1).2.register_failure t2 settings j2).2.register_failure
            t3 settings j3).2))
        tool_name t4 outcomes fail_times fail_seeds sleep_seeds m).log = [] := by
  have hr1 : (CircuitState.new settings.circuit_breaker_reset_seconds).register_failure
      t1 settings j1
      = (none, { failure_count := 1, last_failure := some t1, open_until := none,
                 reset_after := max settings.circuit_breaker_reset_seconds 1 * 1000 }) := by
    unfold CircuitState.register_failure CircuitState.new
    simp [satAdd32_zero_one, hthr]
  have hr2 : ({ failure_count := 1, last_failure := some t1, open_until := none,
                reset_after := max settings.circuit_breaker_reset_seconds 1 * 1000 }
        : CircuitState).register_failure t2 settings j2
      = (none, { failure_count := 2, last_failure := some t2, open_until := none,
                 reset_after := max settings.circuit_breaker_reset_seconds 1 * 1000 }) := by
    unfold CircuitState.register_failure
    have hcw : ¬ (max settings.circuit_breaker_reset_seconds 1 * 1000 ≤ t2 - t1) := by omega
    simp [satAdd32_one_one, hthr, hcw]
  have hr3 : ({ failure_count := 2, last_failure := some t2, open_until := none,
                reset_after := max settings.circuit_breaker_reset_seconds 1 * 1000 }
        : CircuitState).register_failure t3 settings j3
      = (some (compute_backoff_duration settings 0 j3),
         { failure_count := 3, last_failure := some t3,
           open_until := some (t3 + compute_backoff_duration settings 0 j3),
           reset_after := max settings.circuit_breaker_reset_seconds 1 * 1000 }) := by
    unfold CircuitState.register_failure
    have hcw : ¬ (max settings.circuit_breaker_reset_seconds 1 * 1000 ≤ t3 - t2) := by omega
    simp [satAdd32_two_one, hthr, hcw]
  have hd1 : 1 ≤ compute_backoff_duration settings 0 j3 := compute_backoff_pos settings 0 j3
  refine ⟨by rw [hr1], by rw [hr1, hr2], ⟨compute_backoff_duration settings 0 j3,
      by rw [hr1, hr2, hr3]⟩, ?_, ?_⟩
  · refine ⟨some (t3 + compute_backoff_duration settings 0 j3 - t4), ?_⟩
    unfold route_tool_call_execute
    rw [hlook]
    dsimp only
    rw [hsrc]
    dsimp only
    unfold forward_to_downstream
    rw [hcl, hr1, hr2, hr3]
    dsimp only
    unfold CircuitState.is_open
    dsimp only
    rw [if_pos (by omega : t4 < t3 + compute_backoff_duration settings 0 j3)]
    rfl
  · unfold route_tool_call_execute
    rw [hlook]
    dsimp only
    rw [hsrc]
    dsimp only
    unfold forward_to_downstream
    rw [hcl, hr1, hr2, hr3]
    dsimp only
    unfold CircuitState.is_open
    dsimp only
    rw [if_pos (by omega : t4 < t3 + compute_backoff_duration settings 0 j3)]
    rfl

/-- Witness for C5 at a concrete configuration, registry and trace. -/
theorem circuit_opens_and_blocks_routing_witness :
    (route_tool_call_execute [("t", sample_fed_tool)] ["B"] settings_threshold3
        (fun _ => some (((((CircuitState.new 180).register_failure
            0 settings_threshold3 0).2.register_failure 0 settings_threshold3 0).2.register_failure
            0 settings_threshold3 0).2))
        "t" 0 (fun _ => .respOk none) (fun _ => 0) (fun _ => 0) (fun _ => 0)
        { federation_errors := 0, tool_calls_forwarded := 0, circuit_open_skips := 0 }).log
      = [] :=
  (circuit_opens_and_blocks_routing settings_threshold3 rfl 0 0 0 0 0 0 0
    (le_refl 0) (le_refl 0) (le_refl 0) (by decide) (by decide)
    [("t", sample_fed_tool)] ["B"] "t" "u" sample_fed_tool rfl rfl (by decide)
    (fun _ => .respOk none) (fun _ => 0) (fun _ => 0) (fun _ => 0)
    { federation_errors := 0, tool_calls_forwarded := 0, circuit_open_skips := 0 }).2.2.2.2

theorem record_failure_track_ok (settings : FederationSettings)
    (tracker : Option CircuitState) (c now j : Nat)
    (ht : track_ok tracker c) (hc : c + 1 < max settings.circuit_breaker_threshold 1) :
    (record_failure_shared settings tracker now j).1 = none ∧
    track_ok (some (record_failure_shared settings tracker now j).2) (c + 1) := by
  cases tracker with
  | none =>
      have hz : (CircuitState.new settings.circuit_breaker_reset_seconds).failure_count = 0 := rfl
      have h := register_failure_below_threshold
        (CircuitState.new settings.circuit_breaker_reset_seconds) now settings j (by omega)
      refine ⟨h.1, ?_, ?_⟩
      · show ((CircuitState.new settings.circuit_breaker_reset_seconds).register_failure
            now settings j).2.failure_count ≤ c + 1
        have := h.2.1
        omega
      · have hz2 : (CircuitState.new settings.circuit_breaker_reset_seconds).open_until
            = none := rfl
        exact h.2.2.trans hz2
  | some s =>
      have hts : s.failure_count ≤ c ∧ s.open_until = none := ht
      have h := register_failure_below_threshold s now settings j (by omega)
      refine ⟨h.1, ?_, ?_⟩
      · show (s.register_failure now settings j).2.failure_count ≤ c + 1
        have := h.2.1
        omega
      · exact h.2.2.trans hts.2

theorem fwd_loop_not_connected (settings : FederationSettings) (server_id : String)
    (outcomes : Nat → AttemptOutcome) (ft fs ss : Nat → Nat) :
    ∀ (kk : Nat) (fuel attempt c : Nat) (tracker : Option CircuitState) (m : FwdMetrics)
      (log : List FwdAction) (lastErr : Option FwdError),
      kk < fuel →
      (∀ i, i < kk → (∃ msg, outcomes (attempt + i) = .transportErr msg) ∨
                     (∃ msg, outcomes (attempt + i) = .respErr msg)) →
      outcomes (attempt + kk) = .notConnected →
      track_ok tracker c →
      c + kk + 2 ≤ max settings.circuit_breaker_threshold 1 →
      (fwd_loop settings server_id outcomes ft fs ss fuel attempt tracker m log lastErr).result
          = .error (.notConnected server_id) ∧
      ∃ pre,
        (fwd_loop settings server_id outcomes ft fs ss fuel attempt tracker m log lastErr).log
            = log ++ pre ++ [.recordedFailure] ∧
        pre.countP FwdAction.isSleep = kk ∧ pre.countP FwdAction.isRpc = kk ∧
        pre.countP FwdAction.isFailure = kk := by
  intro kk
  induction kk with
  | zero =>
      intro fuel attempt c tracker m log lastErr hfuel hprev hout ht hthr
      cases fuel with
      | zero => omega
      | succ f =>
          rw [Nat.add_zero] at hout
          simp only [fwd_loop, hout]
          exact ⟨by simp, ⟨[], by simp, by simp, by simp, by simp⟩⟩
  | succ kk ih =>
      intro fuel attempt c tracker m log lastErr hfuel hprev hout ht hthr
      cases fuel with
      | zero => omega
      | succ f =>
          have hf : kk < f := by omega
          have hrec := record_failure_track_ok settings tracker c (ft attempt) (fs attempt)
            ht (by omega)
          have hprev' : ∀ i, i < kk →
              (∃ msg, outcomes (attempt + 1 + i) = .transportErr msg) ∨
              (∃ msg, outcomes (attempt + 1 + i) = .respErr msg) := by
            intro i hi
            have h := hprev (i + 1) (by omega)
            rw [show attempt + (i + 1) = attempt + 1 + i by omega] at h
            exact h
          have hout' : outcomes (attempt + 1 + kk) = .notConnected := by
            rw [show attempt + 1 + kk = attempt + (kk + 1) by omega]
            exact hout
          rcases hprev 0 (by omega) with ⟨msg, hmsg⟩ | ⟨msg, hmsg⟩ <;>
            rw [Nat.add_zero] at hmsg
          · simp only [fwd_loop, hmsg, hrec.1]
            rw [if_neg (by omega : ¬ f = 0)]
            obtain ⟨hres, pre, hlog, hs, hr, hfl⟩ := ih f (attempt + 1) (c + 1)
              (some (record_failure_shared settings tracker (ft attempt) (fs attempt)).2)
              { m with federation_errors := m.federation_errors + 1 }
              (log ++ [.rpcCall, .recordedFailure,
                       .slept (compute_backoff_duration settings (attempt + 1) (ss (attempt + 1)))])
              (some (.transportError msg))
              hf hprev' hout' hrec.2 (by omega)
            refine ⟨hres, ⟨[.rpcCall, .recordedFailure,
                .slept (compute_backoff_duration settings (attempt + 1) (ss (attempt + 1)))] ++ pre,
                ?_, ?_, ?_, ?_⟩⟩
            · rw [hlog]
              simp
            · rw [List.countP_append, hs]
              have h1 : List.countP FwdAction.isSleep
                  [FwdAction.rpcCall, FwdAction.recordedFailure,
                   FwdAction.slept (compute_backoff_duration settings (attempt + 1)
                     (ss (attempt + 1)))] = 1 := rfl
              omega
            · rw [List.countP_append, hr]
              have h1 : List.countP FwdAction.isRpc
                  [FwdAction.rpcCall, FwdAction.recordedFailure,
                   FwdAction.slept (compute_backoff_duration settings (attempt + 1)
                     (ss (attempt + 1)))] = 1 := rfl
              omega
            · rw [List.countP_append, hfl]
              have h1 : List.countP FwdAction.isFailure
                  [FwdAction.rpcCall, FwdAction.recordedFailure,
                   FwdAction.slept (compute_backoff_duration settings (attempt + 1)
                     (ss (attempt + 1)))] = 1 := rfl
              omega
          · simp only [fwd_loop, hmsg, hrec.1]
            rw [if_neg (by omega : ¬ f = 0)]
            obtain ⟨hres, pre, hlog, hs, hr, hfl⟩ := ih f (attempt + 1) (c + 1)
              (some (record_failure_shared settings tracker (ft attempt) (fs attempt)).2)
              { m with federation_errors := m.federation_errors + 1 }
              (log ++ [.rpcCall, .recordedFailure,
                       .slept (compute_backoff_duration settings (attempt + 1) (ss (attempt + 1)))])
              (some (.downstreamError msg))
              hf hprev' hout' hrec.2 (by omega)
            refine ⟨hres, ⟨[.rpcCall, .recordedFailure,
                .slept (compute_backoff_duration settings (attempt + 1) (ss (attempt + 1)))] ++ pre,
                ?_, ?_, ?_, ?_⟩⟩
            · rw [hlog]
              simp
            · rw [List.countP_append, hs]
              have h1 : List.countP FwdAction.isSleep
                  [FwdAction.rpcCall, FwdAction.recordedFailure,
                   FwdAction.slept (compute_backoff_duration settings (attempt + 1)
                     (ss (attempt + 1)))] = 1 := rfl
              omega
            · rw [List.countP_append, hr]
              have h1 : List.countP FwdAction.isRpc
                  [FwdAction.rpcCall, FwdAction.recordedFailure,
                   FwdAction.slept (compute_backoff_duration settings (attempt + 1)
                     (ss (attempt + 1)))] = 1 := rfl
              omega
            · rw [List.countP_append, hfl]
              have h1 : List.countP FwdAction.isFailure
                  [FwdAction.rpcCall, FwdAction.recordedFailure,
                   FwdAction.slept (compute_backoff_duration settings (attempt + 1)
                     (ss (attempt + 1)))] = 1 := rfl
              omega

/-- C10: if on attempt k of forward_to_downstream's retry loop the target
client reports not connected — after k earlier failed attempts, none of which
opened the circuit (ensured here by a fresh tracker entry and a threshold
above k+2) — the call records exactly one further circuit failure and returns
an error at once: the log is the k earlier attempts' actions followed by one
final recordedFailure, with no sleep, no RPC and no further attempt after the
detection, even though that last failure does not open the circuit. -/
theorem forward_not_connected_aborts (settings : FederationSettings) (server_id : String)
    (k : Nat) (hk : k ≤ max 1 settings.max_retries)
    (hthr : k + 2 ≤ max settings.circuit_breaker_threshold 1)
    (outcomes : Nat → AttemptOutcome)
    (hprev : ∀ i, i < k → (∃ msg, outcomes i = .transportErr msg) ∨
                          (∃ msg, outcomes i = .respErr msg))
    (hout : outcomes k = .notConnected)
    (now : Nat) (ft fs ss : Nat → Nat) (m : FwdMetrics) :
    (forward_to_downstream settings server_id true none now outcomes ft fs ss m).result
        = .error (.notConnected server_id) ∧
    ∃ pre, (forward_to_downstream settings server_id true none now outcomes ft fs ss m).log
        = pre ++ [.recordedFailure] ∧
      pre.countP FwdAction.isSleep = k ∧ pre.countP FwdAction.isRpc = k ∧
      pre.countP FwdAction.isFailure = k := by
  have hloop := fwd_loop_not_connected settings server_id outcomes ft fs ss k
    (max 1 settings.max_retries + 1) 0 0 none m [] none (by omega)
    (by intro i hi
        rw [Nat.zero_add]
        exact hprev i hi)
    (by rw [Nat.zero_add]; exact hout) trivial (by omega)
  have hfwd : forward_to_downstream settings server_id true none now outcomes ft fs ss m
      = fwd_loop settings server_id outcomes ft fs ss (max 1 settings.max_retries + 1) 0
          none m [] none := rfl
  rw [hfwd]
  obtain ⟨hres, pre, hlog, hs, hr, hfl⟩ := hloop
  refine ⟨hres, ⟨pre, ?_, hs, hr, hfl⟩⟩
  rw [hlog]
  simp

/-- Witness for C10: one transport error, then a not-connected report on
attempt 1. -/
theorem forward_not_connected_aborts_witness :
    (forward_to_downstream settings_threshold3 "B" true none 0
        (fun n => if n = 0 then .transportErr "e" else .notConnected)
        (fun _ => 0) (fun _ => 0) (fun _ => 0)
        { federation_errors := 0, tool_calls_forwarded := 0, circuit_open_skips := 0 }).result
      = .error (.notConnected "B") :=
  (forward_not_connected_aborts settings_threshold3 "B" 1 (by decide) (by decide)
    (fun n => if n = 0 then .transportErr "e" else .notConnected)
    (by intro i hi
        left
        refine ⟨"e", ?_⟩
        rw [show i = 0 by omega]
        rfl)
    rfl 0 (fun _ => 0) (fun _ => 0) (fun _ => 0)
    { federation_errors := 0, tool_calls_forwarded := 0, circuit_open_skips := 0 }).1

/-- Cache-hit postconditions of sync_server_tools: zero registry mutation, no
change events, expiry slid forward, circuit success recorded, cached tool
count returned. -/
theorem sync_cache_hit_postconditions (settings : FederationSettings) (server_id : String)
    (hashFn : List Json → Nat) (ser : Json → List Nat) (hash : List Nat → Nat)
    (tracker : Option CircuitState) (e : ToolCacheEntry)
    (registry : List (String × ToolSpec)) (tools : List Json)
    (now insert_now reg_now fail_time fail_seed : Nat) (m : FwdMetrics)
    (httl : settings.tool_cache_ttl_seconds ≠ 0)
    (hh : e.spec_hash = hashFn tools)
    (hexp : now < e.expires_at)
    (hnop : sync_precheck_open tracker now = false) :
    (sync_server_tools settings server_id hashFn ser hash tracker (some e) registry
        (.toolsPayload tools) now insert_now reg_now fail_time fail_seed m).registry
      = registry ∧
    (sync_server_tools settings server_id hashFn ser hash tracker (some e) registry
        (.toolsPayload tools) now insert_now reg_now fail_time fail_seed m).events = [] ∧
    (sync_server_tools settings server_id hashFn ser hash tracker (some e) registry
        (.toolsPayload tools) now insert_now reg_now fail_time fail_seed m).result
      = .ok e.tool_count ∧
    (sync_server_tools settings server_id hashFn ser hash tracker (some e) registry
        (.toolsPayload tools) now insert_now reg_now fail_time fail_seed m).cache
      = some { e with expires_at := now + max settings.tool_cache_ttl_seconds 1 * 1000 } ∧
    (sync_server_tools settings server_id hashFn ser hash tracker (some e) registry
        (.toolsPayload tools) now insert_now reg_now fail_time fail_seed m).tracker
      = record_success_shared (sync_precheck tracker now) := by
  cases tracker with
  | none =>
      unfold sync_server_tools
      simp only [Bool.false_eq_true, if_false]
      rw [if_pos (show settings.tool_cache_ttl_seconds ≠ 0 ∧ e.spec_hash = hashFn tools ∧
            now < e.expires_at from ⟨httl, hh, hexp⟩)]
      exact ⟨rfl, rfl, rfl, rfl, rfl⟩
  | some st =>
      unfold sync_server_tools
      dsimp only
      unfold sync_precheck_open at hnop
      dsimp only at hnop
      rw [hnop]
      simp only [Bool.false_eq_true, if_false]
      rw [if_pos (show settings.tool_cache_ttl_seconds ≠ 0 ∧ e.spec_hash = hashFn tools ∧
            now < e.expires_at from ⟨httl, hh, hexp⟩)]
      exact ⟨rfl, rfl, rfl, rfl, rfl⟩

theorem sync_register_cache (settings : FederationSettings) (server_id : String)
    (ser : Json → List Nat) (hash : List Nat → Nat) (spec_hash : Nat)
    (tracker : Option CircuitState) (old_cache : Option ToolCacheEntry)
    (registry : List (String × ToolSpec)) (tools : List Json)
    (reg_now insert_now : Nat) (m : FwdMetrics)
    (httl : settings.tool_cache_ttl_seconds ≠ 0) :
    ∃ cnt, (sync_register settings server_id ser hash spec_hash tracker old_cache registry
        tools reg_now insert_now m).cache
      = some { spec_hash := spec_hash,
               expires_at := insert_now + max settings.tool_cache_ttl_seconds 1 * 1000,
               tool_count := cnt } := by
  unfold sync_register
  dsimp only
  rw [if_pos httl]
  exact ⟨_, rfl⟩

/-- C7: (first conjunct) when the tool-cache TTL is positive and a sync
fetches a payload whose content hash equals that of a live cache entry, the
sync performs zero registry mutations and emits no change events, slides the
entry's expiry to now + TTL, records a circuit success, and returns the
cached tool count.  (second conjunct) Hence two consecutive syncs with
byte-identical payloads within the TTL mutate the registry only on the
first: the second run emits no events and leaves the registry exactly as the
first run left it. -/
theorem sync_cache_hit_spec :
    (∀ (settings : FederationSettings) (server_id : String) (hashFn : List Json → Nat)
       (ser : Json → List Nat) (hash : List Nat → Nat) (tracker : Option CircuitState)
       (e : ToolCacheEntry) (registry : List (String × ToolSpec)) (tools : List Json)
       (now insert_now reg_now fail_time fail_seed : Nat) (m : FwdMetrics),
       settings.tool_cache_ttl_seconds ≠ 0 →
       e.spec_hash = hashFn tools →
       now < e.expires_at →
       sync_precheck_open tracker now = false →
       (sync_server_tools settings server_id hashFn ser hash tracker (some e) registry
           (.toolsPayload tools) now insert_now reg_now fail_time fail_seed m).registry
         = registry ∧
       (sync_server_tools settings server_id hashFn ser hash tracker (some e) registry
           (.toolsPayload tools) now insert_now reg_now fail_time fail_seed m).events = [] ∧
       (sync_server_tools settings server_id hashFn ser hash tracker (some e) registry
           (.toolsPayload tools) now insert_now reg_now fail_time fail_seed m).result
         = .ok e.tool_count ∧
       (sync_server_tools settings server_id hashFn ser hash tracker (some e) registry
           (.toolsPayload tools) now insert_now reg_now fail_time fail_seed m).cache
         = some { e with expires_at := now + max settings.tool_cache_ttl_seconds 1 * 1000 } ∧
       (sync_server_tools settings server_id hashFn ser hash tracker (some e) registry
           (.toolsPayload tools) now insert_now reg_now fail_time fail_seed m).tracker
         = record_success_shared (sync_precheck tracker now)) ∧
    (∀ (settings : FederationSettings) (server_id : String) (hashFn : List Json → Nat)
       (ser : Json → List Nat) (hash : List Nat → Nat)
       (registry : List (String × ToolSpec)) (tools : List Json)
       (now1 insert_now reg_now ft1 fs1 now2 insert_now2 reg_now2 ft2 fs2 : Nat)
       (m1 m2 : FwdMetrics),
       settings.tool_cache_ttl_seconds ≠ 0 →
       now2 < insert_now + max settings.tool_cache_ttl_seconds 1 * 1000 →
       (sync_server_tools settings server_id hashFn ser hash
           (sync_server_tools settings server_id hashFn ser hash none none registry
               (.toolsPayload tools) now1 insert_now reg_now ft1 fs1 m1).tracker
           (sync_server_tools settings server_id hashFn ser hash none none registry
               (.toolsPayload tools) now1 insert_now reg_now ft1 fs1 m1).cache
           (sync_server_tools settings server_id hashFn ser hash none none registry
               (.toolsPayload tools) now1 insert_now reg_now ft1 fs1 m1).registry
           (.toolsPayload tools) now2 insert_now2 reg_now2 ft2 fs2 m2).events = [] ∧
       (sync_server_tools settings server_id hashFn ser hash
           (sync_server_tools settings server_id hashFn ser hash none none registry
               (.toolsPayload tools) now1 insert_now reg_now ft1 fs1 m1).tracker
           (sync_server_tools settings server_id hashFn ser hash none none registry
               (.toolsPayload tools) now1 insert_now reg_now ft1 fs1 m1).cache
           (sync_server_tools settings server_id hashFn ser hash none none registry
               (.toolsPayload tools) now1 insert_now reg_now ft1 fs1 m1).registry
           (.toolsPayload tools) now2 insert_now2 reg_now2 ft2 fs2 m2).registry
         = (sync_server_tools settings server_id hashFn ser hash none none registry
               (.toolsPayload tools) now1 insert_now reg_now ft1 fs1 m1).registry) := by
  constructor
  · intro settings server_id hashFn ser hash tracker e registry tools now insert_now reg_now
      fail_time fail_seed m httl hh hexp hnop
    exact sync_cache_hit_postconditions settings server_id hashFn ser hash tracker e registry
      tools now insert_now reg_now fail_time fail_seed m httl hh hexp hnop
  · intro settings server_id hashFn ser hash registry tools now1 insert_now reg_now ft1 fs1
      now2 insert_now2 reg_now2 ft2 fs2 m1 m2 httl hlive
    have hout1 : sync_server_tools settings server_id hashFn ser hash none none registry
        (.toolsPayload tools) now1 insert_now reg_now ft1 fs1 m1
        = sync_register settings server_id ser hash (hashFn tools) none none registry tools
            reg_now insert_now m1 := rfl
    obtain ⟨cnt, hc⟩ := sync_register_cache settings server_id ser hash (hashFn tools) none
      none registry tools reg_now insert_now m1 httl
    have htr : (sync_register settings server_id ser hash (hashFn tools) none none registry
        tools reg_now insert_now m1).tracker = none := rfl
    rw [hout1, hc, htr]
    have hpost := sync_cache_hit_postconditions settings server_id hashFn ser hash none
      { spec_hash := hashFn tools,
        expires_at := insert_now + max settings.tool_cache_ttl_seconds 1 * 1000,
        tool_count := cnt }
      (sync_register settings server_id ser hash (hashFn tools) none none registry tools
        reg_now insert_now m1).registry
      tools now2 insert_now2 reg_now2 ft2 fs2 m2 httl rfl hlive rfl
    exact ⟨hpost.2.1, hpost.1⟩

/-- Witness for C7: a concrete cache hit returns the cached count of 5, and
a concrete second identical sync emits no events. -/
theorem sync_cache_hit_spec_witness :
    (sync_server_tools settings_threshold3 "S" (fun _ => 7) (fun _ => []) (fun _ => 0)
        none (some { spec_hash := 7, expires_at := 100, tool_count := 5 }) []
        (.toolsPayload []) 50 0 0 0 0
        { federation_errors := 0, tool_calls_forwarded := 0, circuit_open_skips := 0 }).result
      = .ok 5 ∧
    (sync_server_tools settings_threshold3 "S" (fun _ => 7) (fun _ => []) (fun _ => 0)
        (sync_server_tools settings_threshold3 "S" (fun _ => 7) (fun _ => []) (fun _ => 0)
            none none [] (.toolsPayload []) 0 0 0 0 0
            { federation_errors := 0, tool_calls_forwarded := 0, circuit_open_skips := 0 }).tracker
        (sync_server_tools settings_threshold3 "S" (fun _ => 7) (fun _ => []) (fun _ => 0)
            none none [] (.toolsPayload []) 0 0 0 0 0
            { federation_errors := 0, tool_calls_forwarded := 0, circuit_open_skips := 0 }).cache
        (sync_server_tools settings_threshold3 "S" (fun _ => 7) (fun _ => []) (fun _ => 0)
            none none [] (.toolsPayload []) 0 0 0 0 0
            { federation_errors := 0, tool_calls_forwarded := 0, circuit_open_skips := 0 }).registry
        (.toolsPayload []) 10 0 0 0 0
        { federation_errors := 0, tool_calls_forwarded := 0, circuit_open_skips := 0 }).events
      = [] :=
  ⟨(sync_cache_hit_spec.1 settings_threshold3 "S" (fun _ => 7) (fun _ => []) (fun _ => 0)
      none { spec_hash := 7, expires_at := 100, tool_count := 5 } [] [] 50 0 0 0 0
      { federation_errors := 0, tool_calls_forwarded := 0, circuit_open_skips := 0 }
      (by decide) rfl (by decide) rfl).2.2.1,
   (sync_cache_hit_spec.2 settings_threshold3 "S" (fun _ => 7) (fun _ => []) (fun _ => 0)
      [] [] 0 0 0 0 0 10 0 0 0 0
      { federation_errors := 0, tool_calls_forwarded := 0, circuit_open_skips := 0 }
      { federation_errors := 0, tool_calls_forwarded := 0, circuit_open_skips := 0 }
      (by decide) (by decide)).1⟩

/-! ### Counting lemmas for the pending-map invariant -/

theorem pcount_append (l1 l2 : List PEntry) (s : String) :
    pcount (l1 ++ l2) s = pcount l1 s + pcount l2 s := List.countP_append _ _ _

theorem ccount_append (l1 l2 : List (String × CompKind)) (s : String) :
    ccount (l1 ++ l2) s = ccount l1 s + ccount l2 s := List.countP_append _ _ _

theorem rcount_append (l1 l2 : List String) (s : String) :
    rcount (l1 ++ l2) s = rcount l1 s + rcount l2 s := List.countP_append _ _ _

theorem pcount_filter_self (l : List PEntry) (s : String) :
    pcount (l.filter (fun p => p.id ≠ s)) s = 0 := by
  unfold pcount
  rw [List.countP_eq_zero]
  intro p hp
  rcases List.mem_filter.mp hp with ⟨_, h2⟩
  simp at h2 ⊢
  exact h2

theorem countP_filter_keep {α : Type} (l : List α) (p q : α → Bool)
    (h : ∀ a, p a = true → q a = true) :
    (l.filter q).countP p = l.countP p := by
  induction l with
  | nil => rfl
  | cons a as ih =>
      rw [List.filter_cons]
      by_cases hq : q a = true
      · rw [if_pos hq, List.countP_cons, List.countP_cons, ih]
      · rw [if_neg hq, ih, List.countP_cons]
        have hp : p a = false := by
          cases hpa : p a
          · rfl
          · exact absurd (h a hpa) hq
        rw [hp]
        simp

theorem pcount_filter_other (l : List PEntry) (s t : String) (hts : t ≠ s) :
    pcount (l.filter (fun p => p.id ≠ s)) t = pcount l t := by
  unfold pcount
  apply countP_filter_keep
  intro a ha
  simp at ha ⊢
  rw [ha]
  exact fun he => hts he

theorem pcount_entry_self (ta tb : Nat) (s : String) :
    pcount [⟨s, ta, tb⟩] s = 1 := by simp [pcount]

theorem pcount_entry_other (ta tb : Nat) (s0 s : String) (h : s ≠ s0) :
    pcount [⟨s0, ta, tb⟩] s = 0 := by
  simp [pcount]
  exact fun he => h he.symm

theorem ccount_entry_self (k : CompKind) (s : String) :
    ccount [(s, k)] s = 1 := by simp [ccount]

theorem ccount_entry_other (k : CompKind) (s0 s : String) (h : s ≠ s0) :
    ccount [(s0, k)] s = 0 := by
  simp [ccount]
  exact fun he => h he.symm

theorem rcount_entry_self (s : String) : rcount [s] s = 1 := by simp [rcount]

theorem rcount_entry_other (s0 s : String) (h : s ≠ s0) : rcount [s0] s = 0 := by
  simp [rcount]
  exact fun he => h he.symm

theorem ccount_map_timedout (l : List PEntry) (k : CompKind) (s : String) :
    ccount (l.map (fun p => (p.id, k))) s = pcount l s := by
  unfold ccount pcount
  rw [List.countP_map]
  rfl

theorem countP_partition {α : Type} (l : List α) (p q : α → Bool) :
    (l.filter q).countP p + (l.filter (fun a => !(q a))).countP p = l.countP p := by
  induction l with
  | nil => rfl
  | cons a as ih =>
      cases hqa : q a <;> cases hpa : p a <;>
        simp [List.filter_cons, List.countP_cons, hqa, hpa] <;> omega

theorem pcount_partition_sweep (l : List PEntry) (now : Nat) (s : String) :
    pcount (l.filter (fun p => ¬ (p.timeout < now - p.sent_at))) s
      + pcount (l.filter (fun p => p.timeout < now - p.sent_at)) s
      = pcount l s := by
  unfold pcount
  have h := countP_partition l (fun p : PEntry => decide (p.id = s))
      (fun p : PEntry => decide (p.timeout < now - p.sent_at))
  rw [show (fun p : PEntry => decide (¬ (p.timeout < now - p.sent_at)))
        = (fun p : PEntry => !(decide (p.timeout < now - p.sent_at))) from by
      funext p
      exact decide_not]
  omega

theorem pcount_pos_of_any (l : List PEntry) (s : String)
    (h : l.any (fun p => p.id = s) = true) : 1 ≤ pcount l s := by
  unfold pcount
  rcases List.any_eq_true.mp h with ⟨p, hp, hps⟩
  exact List.countP_pos_iff.mpr ⟨p, hp, hps⟩

theorem rcount_eq_zero_of_not_mem (l : List String) (s : String) (h : s ∉ l) :
    rcount l s = 0 := by
  unfold rcount
  rw [List.countP_eq_zero]
  intro a ha
  simp
  intro he
  exact h (he ▸ ha)

theorem rcount_pos_of_mem (l : List String) (s : String) (h : s ∈ l) :
    1 ≤ rcount l s := by
  unfold rcount
  exact List.countP_pos_iff.mpr ⟨s, h, by simp⟩

theorem nodup_rcount_le_one (l : List String) (h : l.Nodup) (s : String) :
    rcount l s ≤ 1 := by
  induction l with
  | nil => exact Nat.zero_le 1
  | cons a as ih =>
      rw [List.nodup_cons] at h
      unfold rcount
      rw [List.countP_cons]
      by_cases has : a = s
      · have h0 : rcount as s = 0 := rcount_eq_zero_of_not_mem as s (has ▸ h.1)
        unfold rcount at h0
        simp [has, h0]
      · simp only [has, decide_eq_true_eq]
        have := ih h.2
        unfold rcount at this
        simp [has]
        exact this

/-- One loop iteration preserves the exactly-once invariant, provided a
freshly registered id was never registered before; the registration log grows
by exactly the event's send id. -/
theorem conn_step_inv (cfg : Nat) (st : ConnState) (e : Ev)
    (hinv : ConnInv st)
    (hfresh : ∀ s t w, e = .cmdSend (some s) t w → s ∉ st.registered) :
    ConnInv (conn_step cfg st e).1 ∧
    (conn_step cfg st e).1.registered = st.registered ++ send_ids [e] := by
  cases e with
  | cmdSend id sent_at write_ok =>
      cases id with
      | none =>
          cases write_ok
          · exact ⟨fun s => hinv s, by simp [conn_step, send_ids]⟩
          · exact ⟨fun s => hinv s, by simp [conn_step, send_ids]⟩
      | some s0 =>
          have hreg0 : s0 ∉ st.registered := hfresh s0 sent_at write_ok rfl
          have hrz : rcount st.registered s0 = 0 := rcount_eq_zero_of_not_mem _ _ hreg0
          have hinvs : ∀ s : String,
              pcount (st.pending.filter (fun p => p.id ≠ s0) ++ [⟨s0, sent_at, cfg⟩]) s
                + ccount st.completions s
                = rcount (st.registered ++ [s0]) s ∧
              pcount (st.pending.filter (fun p => p.id ≠ s0) ++ [⟨s0, sent_at, cfg⟩]) s ≤ 1 := by
            intro s
            rw [pcount_append, rcount_append]
            by_cases hs : s = s0
            · subst hs
              rw [pcount_filter_self, pcount_entry_self, rcount_entry_self]
              have h3 := (hinv s).1
              constructor
              · omega
              · omega
            · rw [pcount_filter_other _ _ _ hs, pcount_entry_other _ _ _ _ hs,
                  rcount_entry_other _ _ hs]
              have h3 := (hinv s).1
              have h4 := (hinv s).2
              exact ⟨by omega, by omega⟩
          cases write_ok
          · exact ⟨fun s => hinvs s, by simp [conn_step, send_ids]⟩
          · exact ⟨fun s => hinvs s, by simp [conn_step, send_ids]⟩
  | cmdDisconnect => exact ⟨fun s => hinv s, by simp [conn_step, send_ids]⟩
  | cmdClosed => exact ⟨fun s => hinv s, by simp [conn_step, send_ids]⟩
  | wsText parsed =>
      match parsed with
      | none => exact ⟨fun s => hinv s, by simp [conn_step, send_ids]⟩
      | some none => exact ⟨fun s => hinv s, by simp [conn_step, send_ids]⟩
      | some (some s0) =>
          by_cases hany : st.pending.any (fun p => p.id = s0) = true
          · have hone : pcount st.pending s0 = 1 :=
              le_antisymm (hinv s0).2 (pcount_pos_of_any _ _ hany)
            have hinvs : ∀ s : String,
                pcount (st.pending.filter (fun p => p.id ≠ s0)) s
                  + ccount (st.completions ++ [(s0, .response)]) s
                  = rcount st.registered s ∧
                pcount (st.pending.filter (fun p => p.id ≠ s0)) s ≤ 1 := by
              intro s
              rw [ccount_append]
              by_cases hs : s = s0
              · subst hs
                rw [pcount_filter_self, ccount_entry_self]
                have h3 := (hinv s).1
                exact ⟨by omega, by omega⟩
              · rw [pcount_filter_other _ _ _ hs, ccount_entry_other _ _ _ hs]
                have h3 := (hinv s).1
                have h4 := (hinv s).2
                exact ⟨by omega, by omega⟩
            constructor
            · show ConnInv (conn_step cfg st (.wsText (some (some s0)))).1
              unfold conn_step
              dsimp only
              rw [if_pos hany]
              exact fun s => hinvs s
            · show (conn_step cfg st (.wsText (some (some s0)))).1.registered = _
              unfold conn_step
              dsimp only
              rw [if_pos hany]
              simp [send_ids]
          · constructor
            · show ConnInv (conn_step cfg st (.wsText (some (some s0)))).1
              unfold conn_step
              dsimp only
              rw [if_neg hany]
              exact fun s => hinv s
            · show (conn_step cfg st (.wsText (some (some s0)))).1.registered = _
              unfold conn_step
              dsimp only
              rw [if_neg hany]
              simp [send_ids]
  | wsBinary => exact ⟨fun s => hinv s, by simp [conn_step, send_ids]⟩
  | wsPing pong_ok => exact ⟨fun s => hinv s, by simp [conn_step, send_ids]⟩
  | wsPong => exact ⟨fun s => hinv s, by simp [conn_step, send_ids]⟩
  | wsClose => exact ⟨fun s => hinv s, by simp [conn_step, send_ids]⟩
  | wsFrame => exact ⟨fun s => hinv s, by simp [conn_step, send_ids]⟩
  | wsErr => exact ⟨fun s => hinv s, by simp [conn_step, send_ids]⟩
  | wsClosed => exact ⟨fun s => hinv s, by simp [conn_step, send_ids]⟩
  | tick now =>
      constructor
      · intro s
        have hpart := pcount_partition_sweep st.pending now s
        have hmap := ccount_map_timedout
          (st.pending.filter (fun p => p.timeout < now - p.sent_at)) CompKind.timedOut s
        have hca := ccount_append st.completions
          ((st.pending.filter (fun p => p.timeout < now - p.sent_at)).map
            (fun p => (p.id, CompKind.timedOut))) s
        have h3 := (hinv s).1
        have h4 := (hinv s).2
        constructor
        · show pcount (st.pending.filter (fun p => ¬ (p.timeout < now - p.sent_at))) s
              + ccount (st.completions ++
                  (st.pending.filter (fun p => p.timeout < now - p.sent_at)).map
                    (fun p => (p.id, CompKind.timedOut))) s
            = rcount st.registered s
          omega
        · show pcount (st.pending.filter (fun p => ¬ (p.timeout < now - p.sent_at))) s ≤ 1
          omega
      · simp [conn_step, send_ids]

theorem send_ids_cons (e : Ev) (rest : List Ev) :
    send_ids (e :: rest) = send_ids [e] ++ send_ids rest := by
  cases e with
  | cmdSend id sent_at write_ok =>
      cases id with
      | none => simp [send_ids]
      | some s => simp [send_ids]
  | cmdDisconnect => simp [send_ids]
  | cmdClosed => simp [send_ids]
  | wsText parsed => simp [send_ids]
  | wsBinary => simp [send_ids]
  | wsPing pong_ok => simp [send_ids]
  | wsPong => simp [send_ids]
  | wsClose => simp [send_ids]
  | wsFrame => simp [send_ids]
  | wsErr => simp [send_ids]
  | wsClosed => simp [send_ids]
  | tick now => simp [send_ids]

/-- The select loop preserves the exactly-once invariant along any trace whose
send ids are globally fresh, and the registration log stays duplicate-free. -/
theorem run_loop_inv (cfg : Nat) : ∀ (evs : List Ev) (st : ConnState),
    ConnInv st → (st.registered ++ send_ids evs).Nodup →
    ConnInv (run_loop cfg st evs).1 ∧ (run_loop cfg st evs).1.registered.Nodup := by
  intro evs
  induction evs with
  | nil =>
      intro st hinv hnd
      exact ⟨hinv, by simpa [send_ids] using hnd⟩
  | cons e rest ih =>
      intro st hinv hnd
      rw [send_ids_cons] at hnd
      have hfresh : ∀ s t w, e = .cmdSend (some s) t w → s ∉ st.registered := by
        intro s t w he
        subst he
        have hnd2 := hnd
        rw [← List.append_assoc] at hnd2
        rcases List.nodup_append.mp hnd2 with ⟨h1, _, _⟩
        rcases List.nodup_append.mp h1 with ⟨_, _, h3⟩
        intro hmem
        exact h3 hmem (by simp [send_ids])
      obtain ⟨hinv', hreg'⟩ := conn_step_inv cfg st e hinv hfresh
      have hnd' : ((conn_step cfg st e).1.registered ++ send_ids rest).Nodup := by
        rw [hreg', List.append_assoc]
        exact hnd
      by_cases hb : (conn_step cfg st e).2 = true
      · have hrun : run_loop cfg st (e :: rest)
            = ((conn_step cfg st e).1, true) := by
          simp only [run_loop]
          rw [if_pos hb]
        rw [hrun]
        exact ⟨hinv', (List.nodup_append.mp hnd').1⟩
      · have hrun : run_loop cfg st (e :: rest)
            = run_loop cfg (conn_step cfg st e).1 rest := by
          simp only [run_loop]
          rw [if_neg hb]
        rw [hrun]
        exact ih (conn_step cfg st e).1 hinv' hnd'

/-- C1: over any finite trace of loop events whose registered correlation ids
are pairwise distinct (they are fresh UUIDs in the source), every pending
request's completion handle fires at most once; and when the connection task
ends (the loop breaks), the pending map is drained and every registered
request has fired exactly once — by matching response, by the timeout sweep,
or by the connection teardown.  No registered request is left unresolved. -/
theorem pending_request_exactly_once (cfg_timeout : Nat) (evs : List Ev)
    (hnd : (send_ids evs).Nodup) :
    (∀ s, ccount (connection_task cfg_timeout evs).1.completions s ≤ 1) ∧
    ((connection_task cfg_timeout evs).2 = true →
      (connection_task cfg_timeout evs).1.pending = [] ∧
      ∀ s, s ∈ (connection_task cfg_timeout evs).1.registered →
        ccount (connection_task cfg_timeout evs).1.completions s = 1) := by
  have hinit : ConnInv ConnState.init := by
    intro s
    exact ⟨rfl, Nat.zero_le 1⟩
  have h0 : (ConnState.init.registered ++ send_ids evs).Nodup := by
    simpa [ConnState.init] using hnd
  obtain ⟨hinv, hndreg⟩ := run_loop_inv cfg_timeout evs ConnState.init hinit h0
  have htc : ∀ s, ccount (conn_teardown (run_loop cfg_timeout ConnState.init evs).1).completions s
      = ccount (run_loop cfg_timeout ConnState.init evs).1.completions s
        + pcount (run_loop cfg_timeout ConnState.init evs).1.pending s := by
    intro s
    unfold conn_teardown
    show ccount ((run_loop cfg_timeout ConnState.init evs).1.completions ++
        (run_loop cfg_timeout ConnState.init evs).1.pending.map
          (fun p => (p.id, CompKind.connClosed))) s = _
    rw [ccount_append, ccount_map_timedout]
  unfold connection_task
  by_cases hb : (run_loop cfg_timeout ConnState.init evs).2 = true
  · rw [if_pos hb]
    constructor
    · intro s
      show ccount (conn_teardown (run_loop cfg_timeout ConnState.init evs).1).completions s ≤ 1
      rw [htc s]
      have h3 := (hinv s).1
      have hr1 : rcount (run_loop cfg_timeout ConnState.init evs).1.registered s ≤ 1 :=
        nodup_rcount_le_one _ hndreg s
      omega
    · intro _
      constructor
      · rfl
      · intro s hs
        show ccount (conn_teardown (run_loop cfg_timeout ConnState.init evs).1).completions s = 1
        rw [htc s]
        have h3 := (hinv s).1
        have hr1 : rcount (run_loop cfg_timeout ConnState.init evs).1.registered s ≤ 1 :=
          nodup_rcount_le_one _ hndreg s
        have hr2 : 1 ≤ rcount (run_loop cfg_timeout ConnState.init evs).1.registered s :=
          rcount_pos_of_mem _ _ hs
        omega
  · rw [if_neg hb]
    constructor
    · intro s
      have h3 := (hinv s).1
      have hr1 : rcount (run_loop cfg_timeout ConnState.init evs).1.registered s ≤ 1 :=
        nodup_rcount_le_one _ hndreg s
      show ccount (run_loop cfg_timeout ConnState.init evs).1.completions s ≤ 1
      omega
    · intro hcontra
      simp at hcontra

/-- Witness for C1: a send, its matching response, then a disconnect — the
task ends with no pending entry and exactly one completion for the id. -/
theorem pending_request_exactly_once_witness :
    (connection_task 1000
        [.cmdSend (some "a") 0 true, .wsText (some (some "a")), .cmdDisconnect]).1.pending = [] ∧
    ccount (connection_task 1000
        [.cmdSend (some "a") 0 true, .wsText (some (some "a")), .cmdDisconnect]).1.completions "a"
      = 1 :=
  ⟨((pending_request_exactly_once 1000
      [.cmdSend (some "a") 0 true, .wsText (some (some "a")), .cmdDisconnect]
      (by decide)).2 rfl).1,
   ((pending_request_exactly_once 1000
      [.cmdSend (some "a") 0 true, .wsText (some (some "a")), .cmdDisconnect]
      (by decide)).2 rfl).2 "a" (by decide)⟩
